import Mathlib

/-!
# hztools/go-tap: a shallow embedding of the TAP control plane

Bytes are natural numbers (a well-formed byte is below 256); Go strings and
byte slices are lists of bytes; fixed-size arrays are lists of the array's
length.  Fixed-width integer conversions are written with an explicit modulus.
System calls are recorded in a trace and answered by a `Kernel` record, so
that "which requests reach the kernel" is a value one can compute.
-/

namespace Tap

/-- One byte of a Go string, slice or array. -/
abbrev Byte := Nat

/-- Value of `syscall.IFNAMSIZ`, the capacity of an interface-name buffer. -/
def IFNAMSIZ : Nat := 16

/-- A zeroed Go array `[n]byte`. -/
def zeroed (n : Nat) : List Byte := List.replicate n 0

/-- Go's builtin `copy(dst, src)`: overwrites the first
`min(len(dst), len(src))` elements of `dst` and keeps the rest. -/
def copy (dst src : List Byte) : List Byte :=
  src.take dst.length ++ dst.drop src.length

/-- Go's `bytes.IndexByte(s, c)`: index of the first `c` in `s`
(`none` stands for the result `-1`). -/
def IndexByte : List Byte → Byte → Option Nat
  | [], _ => none
  | b :: bs, c => if b = c then some 0 else (IndexByte bs c).map (· + 1)

/-- The helper `unix.ByteSliceToString` of golang.org/x/sys/unix: the bytes of
`s` before the first NUL, or all of `s` when it holds no NUL. -/
def ByteSliceToString (s : List Byte) : List Byte :=
  match IndexByte s 0 with
  | some i => s.take i
  | none => s

/-- State of the cancellable context made by `context.WithCancel` in `New`:
`done` tells whether the context has been cancelled. -/
structure Context where
  done : Bool
  deriving DecidableEq, Repr

/-- The cancel function of a `context.WithCancel` context (Go standard
library): the first call cancels the context, later calls do nothing. -/
def Context.cancel (c : Context) : Context :=
  if c.done then c else { c with done := true }

/-- The resolved OS-level interface (`net.Interface`); only `Index` is read. -/
structure NetInterface where
  Index : Nat
  deriving DecidableEq, Repr

/-- The type `platformState` of tap_openbsd.go. -/
structure platformState where
  netif : NetInterface
  deriving DecidableEq, Repr

/-- The type `Interface` of tap.go.  `ctx` is the state of the context the
handle and its `cancel` function share; `fdCloses` counts how often the
watcher goroutine of `New` has run `fd.Close()`, `psCloses` how often it has
run `ps.Close()`, and `watching` tells whether that goroutine is still
blocked on `<-ctx.Done()`. -/
structure Interface where
  name : List Byte
  ctx : Context
  ps : platformState
  fdCloses : Nat
  psCloses : Nat
  watching : Bool
  deriving DecidableEq, Repr

/-- The method `Interface.Name` of tap.go. -/
def Interface.Name (i : Interface) : List Byte :=
  ByteSliceToString i.name

/-- The name buffer as `requestInterface` fills it (tap_openbsd.go lines
65 and 102, tap_linux.go line 105): a zeroed `[IFNAMSIZ]byte` into which the
name string is copied. -/
def encodeName (ifname : List Byte) : List Byte :=
  copy (zeroed IFNAMSIZ) ifname

/-- Lifecycle state of a handle: Open while its context is live. -/
inductive Lifecycle
  | Open
  | Closed
  deriving DecidableEq, Repr

/-- Lifecycle state read off the context, as `Read` does with `ctx.Err()`. -/
def Interface.state (i : Interface) : Lifecycle :=
  if i.ctx.done then Lifecycle.Closed else Lifecycle.Open

/-- The method `Interface.Close` of tap.go: cancels the context and returns
`nil` (here `none`).  The descriptor is not closed here. -/
def Interface.Close (i : Interface) : Interface × Option Unit :=
  ({ i with ctx := i.ctx.cancel }, none)

/-- The goroutine started by `New` (tap.go lines 62 to 70): once the context
is done it runs `fd.Close()` and `ps.Close()` and ends.  While the context is
live, or after the goroutine has ended, scheduling it changes nothing. -/
def Interface.watcher (i : Interface) : Interface :=
  if i.watching && i.ctx.done then
    { i with fdCloses := i.fdCloses + 1, psCloses := i.psCloses + 1, watching := false }
  else i

/-- The handle `New` returns (tap.go lines 54 to 79).  `parentDone` is the
state of the context passed in, which `context.WithCancel` inherits, and `req`
is what `requestInterface` returned: the name buffer and platform state, or
its error. -/
def New {ε : Type} (parentDone : Bool) (req : Except ε (List Byte × platformState)) :
    Except ε Interface :=
  match req with
  | .error e => .error e
  | .ok (name, ps) =>
    .ok { name := name, ctx := { done := parentDone }, ps := ps,
          fdCloses := 0, psCloses := 0, watching := true }

/-- What can happen to a handle: a caller runs `Close()`, the owning scope is
cancelled, or the scheduler runs the watcher goroutine. -/
inductive Event
  | close
  | cancelScope
  | watcher
  deriving DecidableEq, Repr

/-- One event applied to a handle. -/
def Interface.step (i : Interface) : Event → Interface
  | .close => i.Close.1
  | .cancelScope => { i with ctx := i.ctx.cancel }
  | .watcher => i.watcher

/-- A sequence of events applied in order. -/
def Interface.run (i : Interface) (es : List Event) : Interface :=
  es.foldl Interface.step i

/-- How many steps of a run take the handle from Open to Closed. -/
def transitions : Interface → List Event → Nat
  | _, [] => 0
  | i, e :: es =>
    (if i.state = Lifecycle.Open ∧ (i.step e).state = Lifecycle.Closed then 1 else 0)
      + transitions (i.step e) es

/-! ## Kernel requests -/

/-- The ioctl request codes the ioctl backend issues for MTU, link-layer
address, address aliases and interface flags (named as in the source). -/
inductive IoctlReq
  | SIOCSIFMTU
  | SIOCSIFLLADDR
  | SIOCAIFADDR
  | SIOCAIFADDR_IN6
  | SIOCGIFFLAGS
  | SIOCSIFFLAGS
  deriving DecidableEq, Repr

/-- Socket domains and types (OpenBSD values of the `syscall` constants). -/
def AF_INET : Nat := 0x2
def AF_ROUTE : Nat := 0x11
def AF_LINK : Nat := 0x12
def AF_INET6 : Nat := 0x18
def SOCK_DGRAM : Nat := 0x2
def SOCK_RAW : Nat := 0x3

/-- Go's conversion `int32(x)` of an unsigned value: keep the low 32 bits and
read them as two's complement. -/
def int32 (x : Nat) : Int :=
  if x % 2 ^ 32 < 2 ^ 31 then (x % 2 ^ 32 : Nat) else ((x % 2 ^ 32 : Nat) : Int) - 2 ^ 32

/-- Go's conversion `uint16(x)`. -/
def uint16 (x : Nat) : Nat := x % 2 ^ 16

/-- Go's conversion `uint8(x)`, also the wrap-around of `uint8` arithmetic. -/
def uint8 (x : Nat) : Nat := x % 2 ^ 8

/-- The type `ifreqMTU` of interface_openbsd.go. -/
structure ifreqMTU where
  Name : List Byte
  MTU : Int
  deriving DecidableEq, Repr

/-- The type `unix.RawSockaddr` (OpenBSD): `Data` is 14 bytes. -/
structure RawSockaddr where
  Len : Nat
  Family : Nat
  Data : List Byte
  deriving DecidableEq, Repr

/-- The type `ifreqLLADDR` of interface_openbsd.go. -/
structure ifreqLLADDR where
  Name : List Byte
  Addr : RawSockaddr
  deriving DecidableEq, Repr

/-- The type `unix.RawSockaddrInet4` (OpenBSD), 16 bytes. -/
structure RawSockaddrInet4 where
  Len : Nat
  Family : Nat
  Port : Nat
  Addr : List Byte
  Zero : List Byte
  deriving DecidableEq, Repr

/-- The type `unix.RawSockaddrInet6` (OpenBSD), 28 bytes. -/
structure RawSockaddrInet6 where
  Len : Nat
  Family : Nat
  Port : Nat
  Flowinfo : Nat
  Addr : List Byte
  Scope_id : Nat
  deriving DecidableEq, Repr

/-- The type `unix.RawSockaddrDatalink` (OpenBSD), 32 bytes; `Typ` is its
field `Type`. -/
structure RawSockaddrDatalink where
  Len : Nat
  Family : Nat
  Index : Nat
  Typ : Nat
  Nlen : Nat
  Alen : Nat
  Slen : Nat
  Data : List Byte
  deriving DecidableEq, Repr

/-- The type `ifaliasreqIPv4` of ip_openbsd.go. -/
structure ifaliasreqIPv4 where
  Name : List Byte
  Addr : RawSockaddrInet4
  Broadcast : RawSockaddrInet4
  Mask : RawSockaddrInet4
  deriving DecidableEq, Repr

/-- The type `addrlifetimeIPv6` of ip_openbsd.go. -/
structure addrlifetimeIPv6 where
  Expire : Int
  Preferred : Int
  ValidLifetime : Nat
  PrefixLifetime : Nat
  deriving DecidableEq, Repr

/-- The type `ifaliasreqIPv6` of ip_openbsd.go. -/
structure ifaliasreqIPv6 where
  Name : List Byte
  Addr : RawSockaddrInet6
  Broadcast : RawSockaddrInet6
  Mask : RawSockaddrInet6
  Flags : Nat
  Lifetime : addrlifetimeIPv6
  deriving DecidableEq, Repr

/-- The type `ifreqFlags` of interface_openbsd.go; `Flags` is a `uint16`. -/
structure ifreqFlags where
  Name : List Byte
  Flags : Nat
  deriving DecidableEq, Repr

/-- The request structure an ioctl call points at. -/
inductive IoctlArg
  | mtu (r : ifreqMTU)
  | lladdr (r : ifreqLLADDR)
  | alias4 (r : ifaliasreqIPv4)
  | alias6 (r : ifaliasreqIPv6)
  | flags (r : ifreqFlags)
  deriving DecidableEq, Repr

/-- The argument of `netlink.NeighAdd` (type `netlink.Neigh`, the fields the
management-socket backend fills; `Typ` is its field `Type`). -/
structure Neigh where
  LinkIndex : Nat
  Typ : Nat
  State : Nat
  IP : List Byte
  HardwareAddr : List Byte
  deriving DecidableEq, Repr

/-- One request made to the kernel, in the order the code makes them. -/
inductive KernelReq
  | socket (domain typ : Nat)
  | ioctl (req : IoctlReq) (arg : IoctlArg)
  | write (buf : List Byte)
  | close
  | neighAdd (n : Neigh)
  deriving DecidableEq, Repr

/-- The kernel's answers: the errno (or `none` for success) of opening a
socket of a domain, of an ioctl, of a write to the routing socket and of a
netlink neighbor insertion, the process id `os.Getpid()` returns, and the
flags word the kernel stores in the request on SIOCGIFFLAGS. -/
structure Kernel where
  socket : Nat → Option Nat
  ioctl : IoctlReq → Option Nat
  write : Option Nat
  neighAdd : Option Nat
  pid : Nat
  flags : Nat

/-- Result of a control operation: the returned `error` (`none` is `nil`; an
error carries the errno) and the requests made to the kernel. -/
structure Outcome where
  err : Option Nat
  trace : List KernelReq
  deriving DecidableEq, Repr

/-- The shape shared by the control operations: open a throwaway socket with
`afInet`, `afInet6` or `afRoute` (sys.go), return its error if that fails,
else make one request, return its result, and close the socket (deferred). -/
def viaSocket (k : Kernel) (domain typ : Nat) (req : KernelReq) (res : Option Nat) :
    Outcome :=
  match k.socket domain with
  | some e => { err := some e, trace := [KernelReq.socket domain typ] }
  | none => { err := res, trace := [KernelReq.socket domain typ, req, KernelReq.close] }

/-! ## Addresses (Go package net) -/

/-- Go's `net.IPv4len`. -/
def IPv4len : Nat := 4

/-- Go's `net.IPv6len`. -/
def IPv6len : Nat := 16

/-- Go's `net.isZeros`. -/
def isZeros (p : List Byte) : Bool := p.all (fun b => b == 0)

/-- The 12 bytes that start an IPv4-mapped IPv6 address in Go's net package. -/
def v4InV6 : List Byte := [0, 0, 0, 0, 0, 0, 0, 0, 0, 0, 0xff, 0xff]

/-- Go's `net.IP.To4`: a 4-byte address is returned as it is, a 16-byte
IPv4-mapped address gives its last 4 bytes, anything else gives `nil`
(the empty list). -/
def To4 (ip : List Byte) : List Byte :=
  if ip.length = IPv4len then ip
  else if ip.length = IPv6len && isZeros (ip.take 10) && ip.getD 10 0 == 0xff
      && ip.getD 11 0 == 0xff then (ip.drop 12).take 4
  else []

/-- Go's `net.IP.To16`: a 4-byte address is mapped into 16 bytes, a 16-byte
address is returned as it is, anything else gives `nil`. -/
def To16 (ip : List Byte) : List Byte :=
  if ip.length = IPv4len then v4InV6 ++ ip
  else if ip.length = IPv6len then ip
  else []

/-- The type `net.IPNet`. -/
structure IPNet where
  IP : List Byte
  Mask : List Byte
  deriving DecidableEq, Repr

/-! ## Memory images -/

/-- A 16-bit field as it lies in memory (little endian). -/
def le16 (n : Nat) : List Byte := [n % 256, n / 256 % 256]

/-- A 32-bit field as it lies in memory (little endian). -/
def le32 (n : Nat) : List Byte :=
  [n % 256, n / 256 % 256, n / 65536 % 256, n / 16777216 % 256]

/-- Memory image of a `unix.RawSockaddrInet4`. -/
def RawSockaddrInet4.bytes (a : RawSockaddrInet4) : List Byte :=
  [a.Len, a.Family] ++ le16 a.Port ++ a.Addr ++ a.Zero

/-- Memory image of a `unix.RawSockaddrInet6`. -/
def RawSockaddrInet6.bytes (a : RawSockaddrInet6) : List Byte :=
  [a.Len, a.Family] ++ le16 a.Port ++ le32 a.Flowinfo ++ a.Addr ++ le32 a.Scope_id

/-- Memory image of a `unix.RawSockaddrDatalink`. -/
def RawSockaddrDatalink.bytes (a : RawSockaddrDatalink) : List Byte :=
  [a.Len, a.Family] ++ le16 a.Index ++ [a.Typ, a.Nlen, a.Alen, a.Slen] ++ a.Data

/-! ## The ioctl backend (OpenBSD) -/

namespace OpenBSD

/-- Value of `unix.SizeofSockaddrInet4` on OpenBSD. -/
def SizeofSockaddrInet4 : Nat := 0x10

/-- Value of `unix.SizeofSockaddrInet6` on OpenBSD. -/
def SizeofSockaddrInet6 : Nat := 0x1c

/-- Value of `unix.SizeofSockaddrAny` on OpenBSD. -/
def SizeofSockaddrAny : Nat := 0x6c

/-- Value of `unix.SizeofSockaddrDatalink` on OpenBSD. -/
def SizeofSockaddrDatalink : Nat := 0x20

/-- Value of `unix.SizeofRtMsghdr` on OpenBSD. -/
def SizeofRtMsghdr : Nat := 0x60

/-- Value of `unix.IFT_ETHER`. -/
def IFT_ETHER : Nat := 0x6

/-- Value of `unix.RTM_VERSION` on OpenBSD. -/
def RTM_VERSION : Nat := 0x5

/-- Value of `unix.RTM_ADD`. -/
def RTM_ADD : Nat := 0x1

/-- Value of `unix.RTF_HOST`. -/
def RTF_HOST : Nat := 0x4

/-- Value of `unix.RTF_STATIC`. -/
def RTF_STATIC : Nat := 0x800

/-- Value of `unix.RTV_EXPIRE`. -/
def RTV_EXPIRE : Nat := 0x4

/-- Value of `unix.RTA_DST` (neigh_openbsd.go line 35). -/
def RTA_DST : Nat := 0x1

/-- Value of `unix.RTA_GATEWAY` (neigh_openbsd.go line 36). -/
def RTA_GATEWAY : Nat := 0x2

/-- The method `Interface.SetMTU` of interface_openbsd.go. -/
def SetMTU (k : Kernel) (i : Interface) (sz : Nat) : Outcome :=
  viaSocket k AF_INET SOCK_DGRAM
    (KernelReq.ioctl IoctlReq.SIOCSIFMTU (IoctlArg.mtu { Name := i.name, MTU := int32 sz }))
    (k.ioctl IoctlReq.SIOCSIFMTU)

/-- The request `Interface.SetHardwareAddr` builds (interface_openbsd.go
lines 132 to 147): `copy(buf[:6], addr)` writes into the first 6 of the 14
payload bytes. -/
def lladdrReq (i : Interface) (addr : List Byte) : ifreqLLADDR :=
  { Name := i.name,
    Addr := { Len := 6, Family := AF_LINK,
              Data := copy ((zeroed 14).take 6) addr ++ (zeroed 14).drop 6 } }

/-- The method `Interface.SetHardwareAddr` of interface_openbsd.go. -/
def SetHardwareAddr (k : Kernel) (i : Interface) (addr : List Byte) : Outcome :=
  viaSocket k AF_INET SOCK_DGRAM
    (KernelReq.ioctl IoctlReq.SIOCSIFLLADDR (IoctlArg.lladdr (lladdrReq i addr)))
    (k.ioctl IoctlReq.SIOCSIFLLADDR)

/-- The zero value of `unix.RawSockaddrInet4`. -/
def zeroInet4 : RawSockaddrInet4 :=
  { Len := 0, Family := 0, Port := 0, Addr := zeroed 4, Zero := zeroed 8 }

/-- The zero value of `unix.RawSockaddrInet6`. -/
def zeroInet6 : RawSockaddrInet6 :=
  { Len := 0, Family := 0, Port := 0, Flowinfo := 0, Addr := zeroed 16, Scope_id := 0 }

/-- The function `rawSockaddrInet4` of ip_openbsd.go. -/
def rawSockaddrInet4 (ip : List Byte) : RawSockaddrInet4 :=
  { zeroInet4 with
    Family := AF_INET, Len := SizeofSockaddrInet4, Addr := copy zeroInet4.Addr (To4 ip) }

/-- The function `rawSockaddrInet6` of ip_openbsd.go. -/
def rawSockaddrInet6 (ip : List Byte) : RawSockaddrInet6 :=
  { zeroInet6 with
    Len := SizeofSockaddrInet6, Family := AF_INET6, Addr := copy zeroInet6.Addr (To16 ip) }

/-- The function `rawSockaddrDatalink` of ip_openbsd.go: `copy(buf[:6], hw)`
writes into the first 6 of the 24 payload bytes. -/
def rawSockaddrDatalink (hw : List Byte) : RawSockaddrDatalink :=
  { Len := SizeofSockaddrDatalink, Family := AF_LINK, Index := 0, Typ := IFT_ETHER,
    Nlen := 0, Alen := 6, Slen := 0,
    Data := copy ((zeroed 24).take 6) hw ++ (zeroed 24).drop 6 }

/-- The request `addAddrIPv4` builds (ip_openbsd.go lines 79 to 83). -/
def aliasReqIPv4 (i : Interface) (ip : List Byte) (network : IPNet) : ifaliasreqIPv4 :=
  { Name := i.name, Addr := rawSockaddrInet4 ip, Broadcast := zeroInet4,
    Mask := rawSockaddrInet4 network.Mask }

/-- The method `Interface.addAddrIPv4` of ip_openbsd.go. -/
def addAddrIPv4 (k : Kernel) (i : Interface) (ip : List Byte) (network : IPNet) : Outcome :=
  viaSocket k AF_INET SOCK_DGRAM
    (KernelReq.ioctl IoctlReq.SIOCAIFADDR (IoctlArg.alias4 (aliasReqIPv4 i ip network)))
    (k.ioctl IoctlReq.SIOCAIFADDR)

/-- The request `addAddrIPv6` builds (ip_openbsd.go lines 127 to 132). -/
def aliasReqIPv6 (i : Interface) (ip : List Byte) (network : IPNet) : ifaliasreqIPv6 :=
  { Name := i.name, Addr := rawSockaddrInet6 ip, Broadcast := zeroInet6,
    Mask := rawSockaddrInet6 network.Mask, Flags := 0,
    Lifetime := { Expire := 0, Preferred := 0, ValidLifetime := 0xFFFFFFFF,
                  PrefixLifetime := 0xFFFFFFFF } }

/-- The method `Interface.addAddrIPv6` of ip_openbsd.go. -/
def addAddrIPv6 (k : Kernel) (i : Interface) (ip : List Byte) (network : IPNet) : Outcome :=
  viaSocket k AF_INET6 SOCK_DGRAM
    (KernelReq.ioctl IoctlReq.SIOCAIFADDR_IN6 (IoctlArg.alias6 (aliasReqIPv6 i ip network)))
    (k.ioctl IoctlReq.SIOCAIFADDR_IN6)

/-- The method `Interface.AddAddr` of ip_openbsd.go.  The assignment
`network.IP = ip` is applied to the network the helpers receive. -/
def AddAddr (k : Kernel) (i : Interface) (ip : List Byte) (network : IPNet) : Outcome :=
  let network := { network with IP := ip }
  if (To4 ip).length = IPv4len then addAddrIPv4 k i ip network
  else addAddrIPv6 k i ip network

/-! ### Routing-socket neighbor messages (neigh_openbsd.go) -/

/-- The type `unix.RtMsghdr` (OpenBSD), 96 bytes.  The `int32` fields hold
their 32-bit pattern; `Typ` is the field `Type`; `Rmx` is the 56-byte
`RtMetrics` record, which the code never writes. -/
structure RtMsghdr where
  Msglen : Nat
  Version : Nat
  Typ : Nat
  Hdrlen : Nat
  Index : Nat
  Tableid : Nat
  Priority : Nat
  Mpls : Nat
  Addrs : Nat
  Flags : Nat
  Fmask : Nat
  Pid : Nat
  Seq : Nat
  Errno : Nat
  Inits : Nat
  Rmx : List Byte
  deriving DecidableEq, Repr

/-- Memory image of a `unix.RtMsghdr`. -/
def RtMsghdr.bytes (h : RtMsghdr) : List Byte :=
  le16 h.Msglen ++ [h.Version, h.Typ] ++ le16 h.Hdrlen ++ le16 h.Index ++ le16 h.Tableid
    ++ [h.Priority, h.Mpls] ++ le32 h.Addrs ++ le32 h.Flags ++ le32 h.Fmask ++ le32 h.Pid
    ++ le32 h.Seq ++ le32 h.Errno ++ le32 h.Inits ++ h.Rmx

/-- The constant `sizeofRtMsgData` of neigh_openbsd.go. -/
def sizeofRtMsgData : Nat := SizeofSockaddrAny * 4

/-- The constant `sizeofRtMsg` of neigh_openbsd.go. -/
def sizeofRtMsg : Nat := SizeofRtMsghdr + sizeofRtMsgData

/-- The type `rtMsg` of neigh_openbsd.go: the header and the variable region. -/
structure rtMsg where
  hdr : RtMsghdr
  data : List Byte
  deriving DecidableEq, Repr

/-- The byte slice `rtMsgBytes` that shares its memory with the `rtMsg`. -/
def rtMsg.bytes (m : rtMsg) : List Byte := m.hdr.bytes ++ m.data

/-- A store of a structure's memory image at `&buf[idx]`. -/
def store (buf : List Byte) (idx : Nat) (v : List Byte) : List Byte :=
  buf.take idx ++ v ++ buf.drop (idx + v.length)

/-- The function `newNeighRtMsg` of neigh_openbsd.go, on zeroed memory of
`sizeofRtMsg` bytes; `pid` is the result of `os.Getpid()`. -/
def newNeighRtMsg (pid : Nat) : rtMsg :=
  { hdr := { Msglen := 0, Version := RTM_VERSION, Typ := RTM_ADD, Hdrlen := 0, Index := 0,
             Tableid := 0, Priority := 0, Mpls := 0, Addrs := 0,
             Flags := RTF_HOST ||| RTF_STATIC, Fmask := 0, Pid := pid % 2 ^ 32, Seq := 1,
             Errno := 0, Inits := RTV_EXPIRE, Rmx := zeroed 56 },
    data := zeroed sizeofRtMsgData }

/-- The message `addNeighborIPv4` builds (neigh_openbsd.go lines 75 to 97),
with the final value of `idx`. -/
def neighMsgIPv4 (pid : Nat) (i : Interface) (mac ip : List Byte) : rtMsg × Nat :=
  let netif := i.ps.netif
  let msg := newNeighRtMsg pid
  let msg := { msg with hdr := { msg.hdr with Index := uint16 netif.Index } }
  let idx := 0
  let ip4 := rawSockaddrInet4 (To4 ip)
  let msg := { msg with hdr := { msg.hdr with Addrs := msg.hdr.Addrs ||| RTA_DST } }
  let msg := { msg with data := store msg.data idx ip4.bytes }
  let idx := idx + uint8 (ip4.Len + ip4.Len % 8)
  let dl := rawSockaddrDatalink mac
  let dl := { dl with Index := uint16 netif.Index }
  let msg := { msg with hdr := { msg.hdr with Addrs := msg.hdr.Addrs ||| RTA_GATEWAY } }
  let msg := { msg with data := store msg.data idx dl.bytes }
  let idx := idx + uint8 (dl.Len + dl.Len % 8)
  let msg := { msg with hdr := { msg.hdr with Msglen := uint16 (SizeofRtMsghdr + idx) } }
  let msg := { msg with hdr := { msg.hdr with Hdrlen := uint16 SizeofRtMsghdr } }
  (msg, idx)

/-- The message `addNeighborIPv6` builds (neigh_openbsd.go lines 109 to 132),
with the final value of `idx`.  The header's `Index` is not assigned (line 111
is a comment). -/
def neighMsgIPv6 (pid : Nat) (i : Interface) (mac ip : List Byte) : rtMsg × Nat :=
  let netif := i.ps.netif
  let msg := newNeighRtMsg pid
  let idx := 0
  let msg := { msg with hdr := { msg.hdr with Addrs := msg.hdr.Addrs ||| RTA_DST } }
  let ip6 := rawSockaddrInet6 (To16 ip)
  let msg := { msg with data := store msg.data idx ip6.bytes }
  let idx := idx + uint8 (ip6.Len + ip6.Len % 8)
  let dl := rawSockaddrDatalink mac
  let dl := { dl with Index := uint16 netif.Index }
  let msg := { msg with hdr := { msg.hdr with Addrs := msg.hdr.Addrs ||| RTA_GATEWAY } }
  let msg := { msg with data := store msg.data idx dl.bytes }
  let idx := idx + uint8 (dl.Len + dl.Len % 8)
  let msg := { msg with hdr := { msg.hdr with Msglen := uint16 (SizeofRtMsghdr + idx) } }
  let msg := { msg with hdr := { msg.hdr with Hdrlen := uint16 SizeofRtMsghdr } }
  (msg, idx)

/-- The write both neighbor functions end with: open the routing socket with
`afRoute`, write `rtMsgBytes[:msg.hdr.Msglen]`, close the socket. -/
def writeRtMsg (k : Kernel) (msg : rtMsg) : Outcome :=
  viaSocket k AF_ROUTE SOCK_RAW (KernelReq.write (msg.bytes.take msg.hdr.Msglen)) k.write

/-- The method `Interface.addNeighborIPv4` of neigh_openbsd.go. -/
def addNeighborIPv4 (k : Kernel) (i : Interface) (mac ip : List Byte) : Outcome :=
  writeRtMsg k (neighMsgIPv4 k.pid i mac ip).1

/-- The method `Interface.addNeighborIPv6` of neigh_openbsd.go. -/
def addNeighborIPv6 (k : Kernel) (i : Interface) (mac ip : List Byte) : Outcome :=
  writeRtMsg k (neighMsgIPv6 k.pid i mac ip).1

/-- The method `Interface.AddNeighbor` of neigh_openbsd.go. -/
def AddNeighbor (k : Kernel) (i : Interface) (mac ip : List Byte) : Outcome :=
  if (To4 ip).length = IPv4len then addNeighborIPv4 k i mac (To4 ip)
  else addNeighborIPv6 k i mac ip

end OpenBSD

/-! ## The management-socket backend (Linux) -/

namespace Linux

/-- Value of `netlink.FAMILY_V4` (Linux `AF_INET`). -/
def FAMILY_V4 : Nat := 0x2

/-- Value of `netlink.FAMILY_V6` (Linux `AF_INET6`). -/
def FAMILY_V6 : Nat := 0xa

/-- Value of `netlink.NUD_PERMANENT`. -/
def NUD_PERMANENT : Nat := 0x80

/-- The method `Interface.addNeighborIPv4` of neigh_linux.go; the link index
is `iface.Attrs().Index`. -/
def addNeighborIPv4 (k : Kernel) (i : Interface) (mac ip : List Byte) : Outcome :=
  { err := k.neighAdd,
    trace := [KernelReq.neighAdd { LinkIndex := i.ps.netif.Index, Typ := FAMILY_V4,
                                   State := NUD_PERMANENT, IP := ip, HardwareAddr := mac }] }

/-- The method `Interface.addNeighborIPv6` of neigh_linux.go. -/
def addNeighborIPv6 (k : Kernel) (i : Interface) (mac ip : List Byte) : Outcome :=
  { err := k.neighAdd,
    trace := [KernelReq.neighAdd { LinkIndex := i.ps.netif.Index, Typ := FAMILY_V6,
                                   State := NUD_PERMANENT, IP := ip, HardwareAddr := mac }] }

/-- The method `Interface.AddNeighbor` of neigh_linux.go. -/
def AddNeighbor (k : Kernel) (i : Interface) (mac ip : List Byte) : Outcome :=
  if (To4 ip).length = IPv4len then addNeighborIPv4 k i mac (To4 ip)
  else addNeighborIPv6 k i mac ip

end Linux

/-- The watcher has closed nothing while it waits, and once after it ran. -/
def watcherInv (i : Interface) : Prop :=
  (i.watching = true ∧ i.fdCloses = 0 ∧ i.psCloses = 0) ∨
    (i.watching = false ∧ i.fdCloses = 1 ∧ i.psCloses = 1)

/-- An IPv4-mapped IPv6 address: 16 bytes that start with ten zero bytes and
two 0xff bytes. -/
def isV4Mapped (ip : List Byte) : Prop :=
  ip.length = 16 ∧ ip.take 12 = v4InV6

instance (ip : List Byte) : Decidable (isV4Mapped ip) := by
  unfold isV4Mapped; infer_instance

/-- The least multiple of 8 that is at least `n`. -/
def pad8 (n : Nat) : Nat := (n + 7) / 8 * 8

/-- The gateway socket address both neighbor functions build
(neigh_openbsd.go lines 90 and 91, 125 and 126): `rawSockaddrDatalink(mac)`
with `Index` set to `uint16(netif.Index)`. -/
def OpenBSD.gateway (i : Interface) (mac : List Byte) : RawSockaddrDatalink :=
  { OpenBSD.rawSockaddrDatalink mac with Index := uint16 i.ps.netif.Index }

/-! ## Groups and link flags (interface_openbsd.go) -/

namespace OpenBSD

/-- The type `ifreqGroup` of interface_openbsd.go; `GroupLen` is a `uint64`. -/
structure ifreqGroup where
  Name : List Byte
  GroupLen : Nat
  Group : List Byte
  deriving DecidableEq, Repr

/-- The two errors `newGroupReq` returns: "tap: interface group is empty" and
"tap: interface group name is too long". -/
inductive GroupError
  | groupEmpty
  | groupTooLong
  deriving DecidableEq, Repr

/-- The function `newGroupReq` of interface_openbsd.go. -/
def newGroupReq (name : List Byte) (group : List Byte) : Except GroupError ifreqGroup :=
  if group = [] then .error GroupError.groupEmpty
  else if group.length ≥ IFNAMSIZ then .error GroupError.groupTooLong
  else .ok { Name := name, GroupLen := 0, Group := copy (zeroed IFNAMSIZ) group }

/-- Value of `syscall.IFF_UP`. -/
def IFF_UP : Nat := 0x1

/-- Value of `syscall.IFF_RUNNING`. -/
def IFF_RUNNING : Nat := 0x40

/-- Go's `^x` on a `uint16`: every one of the 16 bits flipped. -/
def not16 (x : Nat) : Nat := (2 ^ 16 - 1) ^^^ uint16 x

/-- The flags `SetUp` writes back, from the flags it read
(interface_openbsd.go lines 85 to 94). -/
def upFlags (flags : Nat) (updown : Bool) : Nat :=
  if updown then flags ||| IFF_UP else flags &&& not16 IFF_UP

/-- The method `Interface.SetUp` of interface_openbsd.go: the request goes to
SIOCGIFFLAGS with zero flags, the kernel stores its 16-bit flags word in it,
and the updated request goes to SIOCSIFFLAGS. -/
def SetUp (k : Kernel) (i : Interface) (updown : Bool) : Outcome :=
  match k.socket AF_INET with
  | some e => { err := some e, trace := [KernelReq.socket AF_INET SOCK_DGRAM] }
  | none =>
    let req : ifreqFlags := { Name := i.name, Flags := 0 }
    match k.ioctl IoctlReq.SIOCGIFFLAGS with
    | some e =>
      { err := some e,
        trace := [KernelReq.socket AF_INET SOCK_DGRAM,
                  KernelReq.ioctl IoctlReq.SIOCGIFFLAGS (IoctlArg.flags req), KernelReq.close] }
    | none =>
      let got : ifreqFlags := { req with Flags := uint16 k.flags }
      let set : ifreqFlags := { got with Flags := upFlags got.Flags updown }
      { err := k.ioctl IoctlReq.SIOCSIFFLAGS,
        trace := [KernelReq.socket AF_INET SOCK_DGRAM,
                  KernelReq.ioctl IoctlReq.SIOCGIFFLAGS (IoctlArg.flags req),
                  KernelReq.ioctl IoctlReq.SIOCSIFFLAGS (IoctlArg.flags set), KernelReq.close] }

end OpenBSD

/-! ## Creating the interface -/

/-- The errors `requestInterface` returns: `ErrNoUsableDevs` (ioctl backend),
"tap: provided interface name is too long" (management-socket backend), or
the errno of a failed call. -/
inductive ReqError
  | ErrNoUsableDevs
  | nameTooLong
  | errno (e : Nat)
  deriving DecidableEq, Repr

/-- Wrap-around of Go's 64-bit `int`. -/
def wrapInt (x : Int) : Int := (x + 2 ^ 63) % 2 ^ 64 - 2 ^ 63

/-- The decimal digits of `n` as ASCII bytes, least significant first; the
first argument bounds the number of digits. -/
def digitsRev : Nat → Nat → List Byte
  | 0, _ => []
  | fuel + 1, n => if n < 10 then [48 + n] else (48 + n % 10) :: digitsRev fuel (n / 10)

/-- Go's `fmt.Sprintf("%d", i)`. -/
def fmtInt (i : Int) : List Byte :=
  if i < 0 then 45 :: (digitsRev (i.natAbs + 1) i.natAbs).reverse
  else (digitsRev (i.toNat + 1) i.toNat).reverse

namespace OpenBSD

/-- The interface name `fmt.Sprintf("tap%d", i)` (tap_openbsd.go line 101). -/
def tapName (i : Int) : List Byte := [116, 97, 112] ++ fmtInt i

/-- Result of `os.OpenFile("/dev/tap<i>", os.O_RDWR, 0)`: success, an error
for which `os.IsNotExist` holds, or another error. -/
inductive OpenResult
  | ok
  | notExist
  | failed (errno : Nat)
  deriving DecidableEq, Repr

/-- The type `tuninfo` of tap_openbsd.go; `Typ` is its field `Type`. -/
structure tuninfo where
  MTU : Nat
  Typ : Nat
  Flags : Nat
  Baud : Nat
  deriving DecidableEq, Repr

/-- What the system answers during `requestInterface`: the result of opening
`/dev/tap<i>`, of the TUNGIFINFO ioctl (errno or the info read), of the
TUNSIFINFO ioctl, and of `net.InterfaceByName`. -/
structure Devices where
  openTap : Int → OpenResult
  getInfo : Except Nat tuninfo
  setInfo : tuninfo → Option Nat
  byName : List Byte → Except Nat NetInterface

/-- What `requestInterface` returns (name, file, platform state, error;
`none` stands for `nil` and for the empty `platformState{}`), with the indices
whose device files it tried to open, in order. -/
structure Created where
  name : List Byte
  fd : Option Int
  ps : Option platformState
  err : Option ReqError
  tried : List Int
  deriving DecidableEq, Repr

/-- How the loop of `requestInterface` stands after some iterations: it left
through `break` with `/dev/tap<i>` open, it returned `ErrNoUsableDevs`, or it
is still running. -/
inductive LoopEnd
  | opened (i : Int)
  | noUsableDevs
  | running
  deriving DecidableEq, Repr

/-- The loop of `requestInterface` (tap_openbsd.go lines 71 to 82), run for at
most the given number of iterations from counter `i`, with the indices it
tried. -/
def openLoop (d : Devices) : Nat → Int → LoopEnd × List Int
  | 0, _ => (LoopEnd.running, [])
  | fuel + 1, i =>
    match d.openTap i with
    | .ok => (LoopEnd.opened i, [i])
    | .notExist => (LoopEnd.noUsableDevs, [i])
    | .failed _ =>
      ((openLoop d fuel (wrapInt (i + 1))).1, i :: (openLoop d fuel (wrapInt (i + 1))).2)

/-- The rest of `requestInterface` once `/dev/tap<i>` is open (tap_openbsd.go
lines 84 to 111). -/
def afterOpen (d : Devices) (i : Int) (tried : List Int) : Created :=
  let name := zeroed IFNAMSIZ
  match d.getInfo with
  | .error e => { name := name, fd := none, ps := none, err := some (.errno e), tried := tried }
  | .ok info =>
    let info := { info with Typ := IFT_ETHER, Flags := info.Flags ||| (IFF_RUNNING ||| IFF_UP) }
    match d.setInfo info with
    | some e => { name := name, fd := none, ps := none, err := some (.errno e), tried := tried }
    | none =>
      let ifname := tapName i
      let name := copy name ifname
      match d.byName ifname with
      | .error e =>
        { name := name, fd := none, ps := none, err := some (.errno e), tried := tried }
      | .ok netif =>
        { name := name, fd := some i, ps := some { netif := netif }, err := none,
          tried := tried }

/-- The function `requestInterface` of tap_openbsd.go, its loop run for at
most `fuel` iterations; `none` means the loop is still running then. -/
def requestInterface (d : Devices) (fuel : Nat) : Option Created :=
  match openLoop d fuel 0 with
  | (LoopEnd.running, _) => none
  | (LoopEnd.noUsableDevs, tried) =>
    some { name := zeroed IFNAMSIZ, fd := none, ps := none,
           err := some ReqError.ErrNoUsableDevs, tried := tried }
  | (LoopEnd.opened i, tried) => some (afterOpen d i tried)

/-- Devices where `/dev/tap0` and `/dev/tap1` are busy (EBUSY, errno 16),
`/dev/tap2` opens, and every later call succeeds. -/
def busyBusyOk : Devices :=
  { openTap := fun i => if i = 2 then .ok else if i = 0 ∨ i = 1 then .failed 16 else .notExist,
    getInfo := .ok { MTU := 1500, Typ := 0, Flags := 0, Baud := 0 },
    setInfo := fun _ => none,
    byName := fun _ => .ok { Index := 7 } }

/-- Devices where every open fails with EACCES (errno 13). -/
def allDenied : Devices :=
  { openTap := fun _ => .failed 13,
    getInfo := .ok { MTU := 1500, Typ := 0, Flags := 0, Baud := 0 },
    setInfo := fun _ => none,
    byName := fun _ => .ok { Index := 7 } }

end OpenBSD

namespace Linux

/-- The type `PlatformOptions` of tap_linux.go. -/
structure PlatformOptions where
  Name : List Byte
  deriving DecidableEq, Repr

/-- The type `Options` of tap.go, with the Linux platform options. -/
structure Options where
  PlatformOptions : PlatformOptions
  deriving DecidableEq, Repr

/-- The type `ifReqFlags` of tap_linux.go (its padding left out). -/
structure ifReqFlags where
  Name : List Byte
  Flags : Nat
  deriving DecidableEq, Repr

/-- Value of `syscall.IFF_NO_PI` on Linux. -/
def IFF_NO_PI : Nat := 0x1000

/-- Value of `syscall.IFF_TAP` on Linux. -/
def IFF_TAP : Nat := 0x2

/-- What the system answers during `requestInterface`: the errno of opening
`/dev/net/tun`, the result of the TUNSETIFF ioctl (errno, or the name the
kernel leaves in the request), and the result of `netlink.LinkByName`. -/
structure Tun where
  openTun : Option Nat
  tunsetiff : ifReqFlags → Except Nat (List Byte)
  linkByName : List Byte → Except Nat NetInterface

/-- One request `requestInterface` makes, in order. -/
inductive TunReq
  | openTun
  | tunsetiff (req : ifReqFlags)
  | linkByName (name : List Byte)
  | close
  deriving DecidableEq, Repr

/-- What `requestInterface` returns (name, whether a file is returned,
platform state, error), with the requests it made. -/
structure Created where
  name : List Byte
  fd : Bool
  ps : Option platformState
  err : Option ReqError
  trace : List TunReq
  deriving DecidableEq, Repr

/-- The function `requestInterface` of tap_linux.go.  The length test of
line 80 is on the local array `name`, a `[syscall.IFNAMSIZ]byte`. -/
def requestInterface (t : Tun) (opts : Options) : Created :=
  let name := zeroed IFNAMSIZ
  if name.length > IFNAMSIZ then
    { name := name, fd := false, ps := none, err := some ReqError.nameTooLong, trace := [] }
  else
    match t.openTun with
    | some e =>
      { name := name, fd := false, ps := none, err := some (.errno e),
        trace := [TunReq.openTun] }
    | none =>
      let flags := IFF_NO_PI ||| IFF_TAP
      let req : ifReqFlags :=
        { Name := copy (zeroed IFNAMSIZ) opts.PlatformOptions.Name, Flags := flags }
      match t.tunsetiff req with
      | .error e =>
        { name := name, fd := false, ps := none, err := some (.errno e),
          trace := [TunReq.openTun, TunReq.tunsetiff req, TunReq.close] }
      | .ok kname =>
        match t.linkByName (ByteSliceToString kname) with
        | .error e =>
          { name := kname, fd := false, ps := none, err := some (.errno e),
            trace := [TunReq.openTun, TunReq.tunsetiff req,
                      TunReq.linkByName (ByteSliceToString kname), TunReq.close] }
        | .ok netif =>
          { name := kname, fd := true, ps := some { netif := netif }, err := none,
            trace := [TunReq.openTun, TunReq.tunsetiff req,
                      TunReq.linkByName (ByteSliceToString kname)] }

/-- A system in which every call succeeds; the kernel keeps the requested
name and the link has index 5. -/
def tunOk : Tun :=
  { openTun := none, tunsetiff := fun req => .ok req.Name,
    linkByName := fun _ => .ok { Index := 5 } }

/-- A 17-byte name, "abcdefghijklmnopq". -/
def longName : List Byte :=
  [97, 98, 99, 100, 101, 102, 103, 104, 105, 106, 107, 108, 109, 110, 111, 112, 113]

end Linux

/-! ## Example values -/

/-- A handle as `New` returns it for the name "tap7" on interface index 3. -/
def tap7 : Interface :=
  { name := encodeName [116, 97, 112, 55], ctx := { done := false }, ps := { netif := { Index := 3 } },
    fdCloses := 0, psCloses := 0, watching := true }

/-- A kernel in which every request succeeds; the process id is 1234 and the
interface flags are 0x8842 (broadcast, running, simplex, multicast; not up). -/
def kernelOk : Kernel :=
  { socket := fun _ => none, ioctl := fun _ => none, write := none, neighAdd := none, pid := 1234,
    flags := 0x8842 }

/-! ## Lemmas on the helpers -/

theorem length_zeroed (n : Nat) : (zeroed n).length = n := by
  simp [zeroed]

theorem copy_zeroed_of_le (s : List Byte) (n : Nat) (h : s.length ≤ n) :
    copy (zeroed n) s = s ++ zeroed (n - s.length) := by
  simp [copy, zeroed, List.take_of_length_le h]

theorem ByteSliceToString_append_zeroed (s : List Byte) (m : Nat) (h : ∀ b ∈ s, b ≠ 0) :
    ByteSliceToString (s ++ zeroed m) = s := by
  induction s with
  | nil =>
    cases m with
    | zero => simp [ByteSliceToString, zeroed, IndexByte]
    | succ m => simp [ByteSliceToString, zeroed, IndexByte, List.replicate_succ]
  | cons b s ih =>
    have hb : b ≠ 0 := h b (List.mem_cons_self b s)
    have hs : ∀ c ∈ s, c ≠ 0 := fun c hc => h c (List.mem_cons_of_mem b hc)
    have ih1 := ih hs
    unfold ByteSliceToString at ih1 ⊢
    simp only [List.cons_append, IndexByte, if_neg hb]
    cases hi : IndexByte (s ++ zeroed m) 0 with
    | none =>
      rw [hi] at ih1
      simpa using ih1
    | some j =>
      rw [hi] at ih1
      simpa using ih1

/-! ## C1: the name buffer round trip -/

/-- C1, as stated, fails: the 3-byte name "a\0b" is shorter than the buffer,
yet decoding its buffer gives "a". -/
theorem name_roundtrip_fails_on_nul :
    [97, 0, 98].length < IFNAMSIZ ∧
      ({ tap7 with name := encodeName [97, 0, 98] } : Interface).Name = [97] ∧
      ({ tap7 with name := encodeName [97, 0, 98] } : Interface).Name ≠ [97, 0, 98] := by
  decide

/-- C1, amended: for every name shorter than IFNAMSIZ that holds no NUL byte,
copying it into a zeroed name buffer and decoding the buffer with `Name`
returns the name exactly. -/
theorem name_roundtrip (i : Interface) (s : List Byte) (hlen : s.length < IFNAMSIZ)
    (hnul : ∀ b ∈ s, b ≠ 0) :
    ({ i with name := encodeName s } : Interface).Name = s := by
  have hle : s.length ≤ IFNAMSIZ := Nat.le_of_lt hlen
  simp only [Interface.Name, encodeName, copy_zeroed_of_le s IFNAMSIZ hle]
  exact ByteSliceToString_append_zeroed s _ hnul

/-- C1 witness: the name "tap7". -/
theorem name_roundtrip_witness :
    ({ tap7 with name := encodeName [116, 97, 112, 55] } : Interface).Name = [116, 97, 112, 55] :=
  name_roundtrip tap7 [116, 97, 112, 55] (by decide) (by decide)

/-! ## C2: configuration calls after Close -/

/-- C2, as stated, fails: on the closed handle "tap7", `SetMTU(1400)` returns
no error and sends the SIOCSIFMTU request to the kernel. -/
theorem setMTU_after_close_reaches_kernel :
    tap7.Close.1.state = Lifecycle.Closed ∧
      OpenBSD.SetMTU kernelOk tap7.Close.1 1400 =
        { err := none,
          trace := [KernelReq.socket AF_INET SOCK_DGRAM,
                    KernelReq.ioctl IoctlReq.SIOCSIFMTU
                      (IoctlArg.mtu { Name := encodeName [116, 97, 112, 55], MTU := 1400 }),
                    KernelReq.close] } := by
  constructor
  · decide
  · rfl

/-- C2, amended: `SetMTU` does not consult the lifecycle state.  After
`Close()` the handle is Closed, and `SetMTU` does on it exactly what it does
on the open handle: it opens the control socket and returns that error if the
open fails; otherwise it sends one SIOCSIFMTU request carrying the handle's
name and `int32(sz)`, closes the socket and returns the ioctl's result. -/
theorem setMTU_ignores_lifecycle (k : Kernel) (i : Interface) (sz : Nat) :
    i.Close.1.state = Lifecycle.Closed ∧
      OpenBSD.SetMTU k i.Close.1 sz = OpenBSD.SetMTU k i sz ∧
      OpenBSD.SetMTU k i.Close.1 sz =
        (match k.socket AF_INET with
         | some e => { err := some e, trace := [KernelReq.socket AF_INET SOCK_DGRAM] }
         | none =>
           { err := k.ioctl IoctlReq.SIOCSIFMTU,
             trace := [KernelReq.socket AF_INET SOCK_DGRAM,
                       KernelReq.ioctl IoctlReq.SIOCSIFMTU
                         (IoctlArg.mtu { Name := i.name, MTU := int32 sz }),
                       KernelReq.close] }) := by
  refine ⟨?_, rfl, rfl⟩
  cases hd : i.ctx.done <;> simp [Interface.state, Interface.Close, Context.cancel, hd]

/-! ## C3: Close is idempotent -/

theorem state_step_of_closed (i : Interface) (e : Event) (h : i.state = Lifecycle.Closed) :
    (i.step e).state = Lifecycle.Closed := by
  have hd : i.ctx.done = true := by
    cases hd : i.ctx.done
    · simp [Interface.state, hd] at h
    · rfl
  cases e
  · simp [Interface.step, Interface.Close, Interface.state, Context.cancel, hd]
  · simp [Interface.step, Interface.state, Context.cancel, hd]
  · simp only [Interface.step, Interface.watcher, Interface.state]
    split <;> simp [hd]

theorem transitions_of_closed (es : List Event) :
    ∀ i : Interface, i.state = Lifecycle.Closed → transitions i es = 0 := by
  induction es with
  | nil => intro i _; rfl
  | cons e es ih =>
    intro i h
    have h2 := state_step_of_closed i e h
    simp [transitions, h, ih _ h2]

theorem transitions_le_one (es : List Event) : ∀ i : Interface, transitions i es ≤ 1 := by
  induction es with
  | nil => intro i; simp [transitions]
  | cons e es ih =>
    intro i
    simp only [transitions]
    split
    · rename_i h
      rw [transitions_of_closed es _ h.2]
    · have := ih (i.step e)
      omega

theorem watcherInv_step (i : Interface) (e : Event) (h : watcherInv i) :
    watcherInv (i.step e) := by
  cases e
  · simpa [Interface.step, Interface.Close, watcherInv] using h
  · simpa [Interface.step, watcherInv] using h
  · simp only [Interface.step, Interface.watcher]
    split
    · rename_i hc
      rcases h with ⟨_, h1, h2⟩ | ⟨h0, _, _⟩
      · right; simp [h1, h2]
      · simp [h0] at hc
    · exact h

theorem watcherInv_run (es : List Event) :
    ∀ i : Interface, watcherInv i → watcherInv (i.run es) := by
  induction es with
  | nil => intro i h; exact h
  | cons e es ih =>
    intro i h
    exact ih _ (watcherInv_step i e h)

/-- C3: `Close()` returns no error in every state and leaves the handle
Closed; a second `Close()` returns no error and leaves the handle exactly as
the first call left it; over any sequence of Close calls, scope cancellations
and watcher runs the handle goes from Open to Closed at most once, and on a
handle made by `New` the descriptor and the backend state are closed at most
once. -/
theorem close_idempotent (i : Interface) (es : List Event) (parentDone : Bool)
    (name : List Byte) (ps : platformState) :
    i.Close.2 = none ∧ i.Close.1.state = Lifecycle.Closed ∧
      i.Close.1.Close.2 = none ∧ i.Close.1.Close.1 = i.Close.1 ∧
      transitions i es ≤ 1 ∧
      (match New (ε := Unit) parentDone (.ok (name, ps)) with
       | .ok h => (h.run es).fdCloses ≤ 1 ∧ (h.run es).psCloses ≤ 1
       | .error _ => False) := by
  refine ⟨rfl, ?_, rfl, ?_, transitions_le_one es i, ?_⟩
  · cases hd : i.ctx.done <;> simp [Interface.state, Interface.Close, Context.cancel, hd]
  · cases hd : i.ctx.done <;> simp [Interface.Close, Context.cancel, hd]
  · simp only [New]
    have h0 : watcherInv (Interface.mk name (Context.mk parentDone) ps 0 0 true) :=
      Or.inl ⟨rfl, rfl, rfl⟩
    rcases watcherInv_run es _ h0 with ⟨_, h1, h2⟩ | ⟨_, h1, h2⟩ <;> simp [h1, h2]

/-! ## Lemmas on addresses and stores -/

theorem length_copy (dst src : List Byte) : (copy dst src).length = dst.length := by
  simp only [copy, List.length_append, List.length_take, List.length_drop]
  omega

theorem drop_zeroed (n m : Nat) : (zeroed n).drop m = zeroed (n - m) := by
  simp [zeroed]

theorem take_zeroed (n m : Nat) : (zeroed n).take m = zeroed (min m n) := by
  simp [zeroed]

theorem store_append (a b v : List Byte) :
    OpenBSD.store (a ++ b) a.length v = a ++ v ++ b.drop v.length := by
  simp [OpenBSD.store]

theorem store_zero (b v : List Byte) : OpenBSD.store b 0 v = v ++ b.drop v.length := by
  simp [OpenBSD.store]

theorem To4_of_length4 (ip : List Byte) (h : ip.length = 4) : To4 ip = ip := by
  simp [To4, IPv4len, h]

theorem To4_length_iff (ip : List Byte) :
    (To4 ip).length = IPv4len ↔ (ip.length = 4 ∨ isV4Mapped ip) := by
  by_cases h4 : ip.length = 4
  · simp [To4, IPv4len, h4]
  · by_cases h16 : ip.length = 16
    · match ip, h16 with
      | [a0, a1, a2, a3, a4, a5, a6, a7, a8, a9, a10, a11, a12, a13, a14, a15], _ =>
        simp [To4, IPv4len, IPv6len, isZeros, isV4Mapped, v4InV6]
        split <;> simp_all
    · simp [To4, IPv4len, IPv6len, h4, h16, isV4Mapped]

theorem To4_of_bad_length (ip : List Byte) (h4 : ip.length ≠ 4) (h16 : ip.length ≠ 16) :
    To4 ip = [] := by
  simp [To4, IPv4len, IPv6len, h4, h16]

theorem To16_of_bad_length (ip : List Byte) (h4 : ip.length ≠ 4) (h16 : ip.length ≠ 16) :
    To16 ip = [] := by
  simp [To16, IPv4len, IPv6len, h4, h16]

/-! ## C4: address-family dispatch -/

/-- C4, as stated, fails: the 16-byte address ::ffff:10.0.0.1 (what Go's
`net.ParseIP("10.0.0.1")` returns) takes the IPv4 path in `AddAddr` (an
AF_INET socket and the IPv4 alias request) and in `AddNeighbor` (the IPv4
message, destination family AF_INET). -/
theorem mapped_address_takes_ipv4_path :
    (v4InV6 ++ [10, 0, 0, 1]).length = 16 ∧
      OpenBSD.AddAddr kernelOk tap7 (v4InV6 ++ [10, 0, 0, 1]) ⟨[], [255, 255, 255, 0]⟩ =
        { err := none,
          trace := [KernelReq.socket AF_INET SOCK_DGRAM,
                    KernelReq.ioctl IoctlReq.SIOCAIFADDR
                      (IoctlArg.alias4
                        { Name := encodeName [116, 97, 112, 55],
                          Addr := { Len := 16, Family := AF_INET, Port := 0,
                                    Addr := [10, 0, 0, 1], Zero := zeroed 8 },
                          Broadcast := OpenBSD.zeroInet4,
                          Mask := { Len := 16, Family := AF_INET, Port := 0,
                                    Addr := [255, 255, 255, 0], Zero := zeroed 8 } }),
                    KernelReq.close] } ∧
      OpenBSD.AddNeighbor kernelOk tap7 [1, 2, 3, 4, 5, 6] (v4InV6 ++ [10, 0, 0, 1]) =
        OpenBSD.addNeighborIPv4 kernelOk tap7 [1, 2, 3, 4, 5, 6] [10, 0, 0, 1] ∧
      (OpenBSD.neighMsgIPv4 1234 tap7 [1, 2, 3, 4, 5, 6] [10, 0, 0, 1]).1.data.take 16 =
        [16, AF_INET, 0, 0, 10, 0, 0, 1, 0, 0, 0, 0, 0, 0, 0, 0] := by
  refine ⟨by decide, rfl, rfl, rfl⟩

/-- C4, amended: the dispatch in `AddAddr` and `AddNeighbor` follows
`ip.To4()`: an address takes the IPv4 path exactly when its byte length is 4
or it is a 16-byte IPv4-mapped address (ten zero bytes, then 0xff 0xff), and
the IPv6 path otherwise; so every 4-byte address takes the IPv4 path and
every 16-byte address that is not IPv4-mapped takes the IPv6 path.  The IPv4
path of `AddAddr` opens an AF_INET socket and the IPv6 path an AF_INET6
socket. -/
theorem dispatch_follows_To4 (k : Kernel) (i : Interface) (mac ip : List Byte)
    (network : IPNet) :
    OpenBSD.AddAddr k i ip network =
        (if ip.length = 4 ∨ isV4Mapped ip then
          OpenBSD.addAddrIPv4 k i ip { network with IP := ip }
         else OpenBSD.addAddrIPv6 k i ip { network with IP := ip }) ∧
      OpenBSD.AddNeighbor k i mac ip =
        (if ip.length = 4 ∨ isV4Mapped ip then OpenBSD.addNeighborIPv4 k i mac (To4 ip)
         else OpenBSD.addNeighborIPv6 k i mac ip) ∧
      Linux.AddNeighbor k i mac ip =
        (if ip.length = 4 ∨ isV4Mapped ip then Linux.addNeighborIPv4 k i mac (To4 ip)
         else Linux.addNeighborIPv6 k i mac ip) ∧
      (OpenBSD.addAddrIPv4 k i ip network).trace.head? =
        some (KernelReq.socket AF_INET SOCK_DGRAM) ∧
      (OpenBSD.addAddrIPv6 k i ip network).trace.head? =
        some (KernelReq.socket AF_INET6 SOCK_DGRAM) := by
  have hiff := To4_length_iff ip
  refine ⟨?_, ?_, ?_, ?_, ?_⟩
  · simp only [OpenBSD.AddAddr]
    by_cases h : (To4 ip).length = IPv4len
    · rw [if_pos h, if_pos (hiff.mp h)]
    · rw [if_neg h, if_neg (fun h2 => h (hiff.mpr h2))]
  · simp only [OpenBSD.AddNeighbor]
    by_cases h : (To4 ip).length = IPv4len
    · rw [if_pos h, if_pos (hiff.mp h)]
    · rw [if_neg h, if_neg (fun h2 => h (hiff.mpr h2))]
  · simp only [Linux.AddNeighbor]
    by_cases h : (To4 ip).length = IPv4len
    · rw [if_pos h, if_pos (hiff.mp h)]
    · rw [if_neg h, if_neg (fun h2 => h (hiff.mpr h2))]
  · simp only [OpenBSD.addAddrIPv4, viaSocket]
    cases k.socket AF_INET <;> rfl
  · simp only [OpenBSD.addAddrIPv6, viaSocket]
    cases k.socket AF_INET6 <;> rfl

/-! ## Layout of the neighbor message -/

theorem length_bytes_inet4 (ip : List Byte) :
    (OpenBSD.rawSockaddrInet4 ip).bytes.length = 16 := by
  simp [OpenBSD.rawSockaddrInet4, RawSockaddrInet4.bytes, le16, length_copy,
    OpenBSD.zeroInet4, length_zeroed]

theorem length_bytes_inet6 (ip : List Byte) :
    (OpenBSD.rawSockaddrInet6 ip).bytes.length = 28 := by
  simp [OpenBSD.rawSockaddrInet6, RawSockaddrInet6.bytes, le16, le32, length_copy,
    OpenBSD.zeroInet6, length_zeroed]

theorem zeroed_append (a b : Nat) : zeroed a ++ zeroed b = zeroed (a + b) := by
  simp only [zeroed, List.replicate_add]

theorem datalink_data (mac : List Byte) :
    (OpenBSD.rawSockaddrDatalink mac).Data = mac.take 6 ++ zeroed (24 - min 6 mac.length) := by
  have h6 : (6 ⊓ 24 : Nat) = 6 := rfl
  simp only [OpenBSD.rawSockaddrDatalink, copy, take_zeroed, drop_zeroed, length_zeroed, h6]
  rw [List.append_assoc, zeroed_append]
  congr 2
  omega

theorem length_bytes_gateway (i : Interface) (mac : List Byte) :
    (OpenBSD.gateway i mac).bytes.length = 32 := by
  simp [OpenBSD.gateway, RawSockaddrDatalink.bytes, le16, datalink_data, length_zeroed]

theorem neighMsgIPv4_data (pid : Nat) (i : Interface) (mac ip : List Byte) :
    (OpenBSD.neighMsgIPv4 pid i mac ip).1.data =
      (OpenBSD.rawSockaddrInet4 (To4 ip)).bytes ++ (OpenBSD.gateway i mac).bytes ++ zeroed 384 := by
  have h4 := length_bytes_inet4 (To4 ip)
  have hg := length_bytes_gateway i mac
  have hd : (OpenBSD.neighMsgIPv4 pid i mac ip).1.data =
      OpenBSD.store (OpenBSD.store (zeroed 432) 0 (OpenBSD.rawSockaddrInet4 (To4 ip)).bytes)
        (OpenBSD.rawSockaddrInet4 (To4 ip)).bytes.length (OpenBSD.gateway i mac).bytes := by
    rw [h4]
    simp only [OpenBSD.neighMsgIPv4]
    have e1 : (0 + uint8 ((OpenBSD.rawSockaddrInet4 (To4 ip)).Len +
        (OpenBSD.rawSockaddrInet4 (To4 ip)).Len % 8)) = 16 := by
      simp [OpenBSD.rawSockaddrInet4, OpenBSD.SizeofSockaddrInet4, uint8]
    rw [e1]
    rfl
  rw [hd, store_zero, store_append, h4, hg, drop_zeroed, drop_zeroed]

theorem neighMsgIPv6_data (pid : Nat) (i : Interface) (mac ip : List Byte) :
    (OpenBSD.neighMsgIPv6 pid i mac ip).1.data =
      (OpenBSD.rawSockaddrInet6 (To16 ip)).bytes ++ zeroed 4 ++ (OpenBSD.gateway i mac).bytes
        ++ zeroed 368 := by
  have h6 := length_bytes_inet6 (To16 ip)
  have hg := length_bytes_gateway i mac
  have hl : ((OpenBSD.rawSockaddrInet6 (To16 ip)).bytes ++ zeroed 4).length = 32 := by
    simp [h6, length_zeroed]
  have hd : (OpenBSD.neighMsgIPv6 pid i mac ip).1.data =
      OpenBSD.store (OpenBSD.store (zeroed 432) 0 (OpenBSD.rawSockaddrInet6 (To16 ip)).bytes)
        ((OpenBSD.rawSockaddrInet6 (To16 ip)).bytes ++ zeroed 4).length
        (OpenBSD.gateway i mac).bytes := by
    rw [hl]
    simp only [OpenBSD.neighMsgIPv6]
    have e1 : (0 + uint8 ((OpenBSD.rawSockaddrInet6 (To16 ip)).Len +
        (OpenBSD.rawSockaddrInet6 (To16 ip)).Len % 8)) = 32 := by
      simp [OpenBSD.rawSockaddrInet6, OpenBSD.SizeofSockaddrInet6, uint8]
    rw [e1]
    rfl
  have hz : zeroed (432 - 28) = zeroed 4 ++ zeroed 400 := by
    rw [zeroed_append]
  rw [hd, store_zero, h6, drop_zeroed, hz, ← List.append_assoc, store_append, hg, drop_zeroed]

theorem neighMsgIPv4_hdr (pid : Nat) (i : Interface) (mac ip : List Byte) :
    (OpenBSD.neighMsgIPv4 pid i mac ip).1.hdr =
      { Msglen := 144, Version := OpenBSD.RTM_VERSION, Typ := OpenBSD.RTM_ADD, Hdrlen := 96,
        Index := uint16 i.ps.netif.Index, Tableid := 0, Priority := 0, Mpls := 0, Addrs := 3,
        Flags := 0x804, Fmask := 0, Pid := pid % 2 ^ 32, Seq := 1, Errno := 0,
        Inits := OpenBSD.RTV_EXPIRE, Rmx := zeroed 56 } := by
  simp [OpenBSD.neighMsgIPv4, OpenBSD.newNeighRtMsg, OpenBSD.rawSockaddrInet4,
    OpenBSD.rawSockaddrDatalink, OpenBSD.SizeofSockaddrInet4, OpenBSD.SizeofSockaddrDatalink,
    OpenBSD.SizeofRtMsghdr, OpenBSD.RTA_DST, OpenBSD.RTA_GATEWAY, OpenBSD.RTF_HOST,
    OpenBSD.RTF_STATIC, uint8, uint16]

theorem neighMsgIPv6_hdr (pid : Nat) (i : Interface) (mac ip : List Byte) :
    (OpenBSD.neighMsgIPv6 pid i mac ip).1.hdr =
      { Msglen := 160, Version := OpenBSD.RTM_VERSION, Typ := OpenBSD.RTM_ADD, Hdrlen := 96,
        Index := 0, Tableid := 0, Priority := 0, Mpls := 0, Addrs := 3,
        Flags := 0x804, Fmask := 0, Pid := pid % 2 ^ 32, Seq := 1, Errno := 0,
        Inits := OpenBSD.RTV_EXPIRE, Rmx := zeroed 56 } := by
  simp [OpenBSD.neighMsgIPv6, OpenBSD.newNeighRtMsg, OpenBSD.rawSockaddrInet6,
    OpenBSD.rawSockaddrDatalink, OpenBSD.SizeofSockaddrInet6, OpenBSD.SizeofSockaddrDatalink,
    OpenBSD.SizeofRtMsghdr, OpenBSD.RTA_DST, OpenBSD.RTA_GATEWAY, OpenBSD.RTF_HOST,
    OpenBSD.RTF_STATIC, uint8, uint16]

theorem length_bytes_hdr (h : OpenBSD.RtMsghdr) (hr : h.Rmx.length = 56) :
    h.bytes.length = 96 := by
  simp [OpenBSD.RtMsghdr.bytes, le16, le32, hr]

theorem neighMsgIPv4_dst_region (pid : Nat) (i : Interface) (mac ip : List Byte) :
    (OpenBSD.neighMsgIPv4 pid i mac ip).1.data.take 16 =
      (OpenBSD.rawSockaddrInet4 (To4 ip)).bytes := by
  have h4 := length_bytes_inet4 (To4 ip)
  rw [neighMsgIPv4_data, List.append_assoc, ← h4, List.take_left]

theorem neighMsgIPv4_gateway_region (pid : Nat) (i : Interface) (mac ip : List Byte) :
    ((OpenBSD.neighMsgIPv4 pid i mac ip).1.data.drop 16).take 32 = (OpenBSD.gateway i mac).bytes := by
  have h4 := length_bytes_inet4 (To4 ip)
  have hg := length_bytes_gateway i mac
  rw [neighMsgIPv4_data, List.append_assoc, ← h4, List.drop_left, ← hg, List.take_left]

theorem neighMsgIPv6_dst_region (pid : Nat) (i : Interface) (mac ip : List Byte) :
    (OpenBSD.neighMsgIPv6 pid i mac ip).1.data.take 28 =
      (OpenBSD.rawSockaddrInet6 (To16 ip)).bytes := by
  have h6 := length_bytes_inet6 (To16 ip)
  rw [neighMsgIPv6_data, List.append_assoc, List.append_assoc, ← h6, List.take_left]

theorem neighMsgIPv6_gateway_region (pid : Nat) (i : Interface) (mac ip : List Byte) :
    ((OpenBSD.neighMsgIPv6 pid i mac ip).1.data.drop 32).take 32 = (OpenBSD.gateway i mac).bytes := by
  have h6 := length_bytes_inet6 (To16 ip)
  have hg := length_bytes_gateway i mac
  have hl : ((OpenBSD.rawSockaddrInet6 (To16 ip)).bytes ++ zeroed 4).length = 32 := by
    simp [h6, length_zeroed]
  rw [neighMsgIPv6_data, List.append_assoc, List.drop_left' hl, List.take_left' hg]

theorem length_data_IPv4 (pid : Nat) (i : Interface) (mac ip : List Byte) :
    (OpenBSD.neighMsgIPv4 pid i mac ip).1.data.length = 432 := by
  simp [neighMsgIPv4_data, length_bytes_inet4, length_bytes_gateway, length_zeroed]

theorem length_data_IPv6 (pid : Nat) (i : Interface) (mac ip : List Byte) :
    (OpenBSD.neighMsgIPv6 pid i mac ip).1.data.length = 432 := by
  simp [neighMsgIPv6_data, length_bytes_inet6, length_bytes_gateway, length_zeroed]

theorem length_bytes_IPv4 (pid : Nat) (i : Interface) (mac ip : List Byte) :
    (OpenBSD.neighMsgIPv4 pid i mac ip).1.bytes.length = 528 := by
  have hh : (OpenBSD.neighMsgIPv4 pid i mac ip).1.hdr.bytes.length = 96 :=
    length_bytes_hdr _ (by rw [neighMsgIPv4_hdr]; exact length_zeroed 56)
  simp [OpenBSD.rtMsg.bytes, hh, length_data_IPv4]

theorem length_bytes_IPv6 (pid : Nat) (i : Interface) (mac ip : List Byte) :
    (OpenBSD.neighMsgIPv6 pid i mac ip).1.bytes.length = 528 := by
  have hh : (OpenBSD.neighMsgIPv6 pid i mac ip).1.hdr.bytes.length = 96 :=
    length_bytes_hdr _ (by rw [neighMsgIPv6_hdr]; exact length_zeroed 56)
  simp [OpenBSD.rtMsg.bytes, hh, length_data_IPv6]

theorem pad8_least (n : Nat) :
    8 ∣ pad8 n ∧ n ≤ pad8 n ∧ ∀ m, 8 ∣ m → n ≤ m → pad8 n ≤ m := by
  unfold pad8
  refine ⟨Nat.dvd_mul_left 8 _, by omega, ?_⟩
  intro m hm hn
  obtain ⟨c, rfl⟩ := hm
  omega

theorem neighMsgIPv6_of_bad_length (pid : Nat) (i : Interface) (mac ip : List Byte)
    (h4 : ip.length ≠ 4) (h16 : ip.length ≠ 16) :
    OpenBSD.neighMsgIPv6 pid i mac ip = OpenBSD.neighMsgIPv6 pid i mac (zeroed 16) := by
  simp only [OpenBSD.neighMsgIPv6, To16_of_bad_length ip h4 h16]
  rfl

/-! ## C5: IP addresses of a length other than 4 or 16 -/

/-- C5, as stated, fails: for the 3-byte address 1.2.3 `AddAddr` returns no
error after opening an AF_INET6 socket and sending the IPv6 alias request with
an all-zero address, and `AddNeighbor` returns no error after opening the
routing socket and writing a 160-byte message. -/
theorem bad_ip_length_reaches_kernel :
    [1, 2, 3].length ≠ 4 ∧ [1, 2, 3].length ≠ 16 ∧
      OpenBSD.AddAddr kernelOk tap7 [1, 2, 3] ⟨[], [255, 255, 255, 0]⟩ =
        { err := none,
          trace := [KernelReq.socket AF_INET6 SOCK_DGRAM,
                    KernelReq.ioctl IoctlReq.SIOCAIFADDR_IN6
                      (IoctlArg.alias6
                        { Name := encodeName [116, 97, 112, 55],
                          Addr := { Len := 28, Family := AF_INET6, Port := 0, Flowinfo := 0,
                                    Addr := zeroed 16, Scope_id := 0 },
                          Broadcast := OpenBSD.zeroInet6,
                          Mask := OpenBSD.rawSockaddrInet6 [255, 255, 255, 0],
                          Flags := 0,
                          Lifetime := { Expire := 0, Preferred := 0,
                                        ValidLifetime := 0xFFFFFFFF,
                                        PrefixLifetime := 0xFFFFFFFF } }),
                    KernelReq.close] } ∧
      OpenBSD.AddNeighbor kernelOk tap7 [1, 2, 3, 4, 5, 6] [1, 2, 3] =
        { err := none,
          trace := [KernelReq.socket AF_ROUTE SOCK_RAW,
                    KernelReq.write
                      ((OpenBSD.neighMsgIPv6 1234 tap7 [1, 2, 3, 4, 5, 6] (zeroed 16)).1.bytes.take 160),
                    KernelReq.close] } := by
  refine ⟨by decide, by decide, rfl, rfl⟩

/-- C5, amended: `AddAddr` and `AddNeighbor` do not validate the length of the
IP address.  An address whose byte length is neither 4 nor 16 takes the IPv6
path and is handled like the all-zero IPv6 address: `AddAddr` opens an
AF_INET6 control socket and, when that succeeds, sends the IPv6 alias request
with an all-zero address; `AddNeighbor` on the ioctl backend opens the routing
socket and, when that succeeds, writes the 160-byte IPv6 neighbor message with
an all-zero destination; `AddNeighbor` on the management-socket backend hands
the address as it is, with family FAMILY_V6, to `netlink.NeighAdd`. -/
theorem bad_ip_length_takes_ipv6_path (k : Kernel) (i : Interface) (mac ip : List Byte)
    (network : IPNet) (h4 : ip.length ≠ 4) (h16 : ip.length ≠ 16) :
    OpenBSD.AddAddr k i ip network =
        viaSocket k AF_INET6 SOCK_DGRAM
          (KernelReq.ioctl IoctlReq.SIOCAIFADDR_IN6
            (IoctlArg.alias6
              { Name := i.name,
                Addr := { Len := 28, Family := AF_INET6, Port := 0, Flowinfo := 0,
                          Addr := zeroed 16, Scope_id := 0 },
                Broadcast := OpenBSD.zeroInet6,
                Mask := OpenBSD.rawSockaddrInet6 network.Mask,
                Flags := 0,
                Lifetime := { Expire := 0, Preferred := 0, ValidLifetime := 0xFFFFFFFF,
                              PrefixLifetime := 0xFFFFFFFF } }))
          (k.ioctl IoctlReq.SIOCAIFADDR_IN6) ∧
      OpenBSD.AddNeighbor k i mac ip =
        viaSocket k AF_ROUTE SOCK_RAW
          (KernelReq.write ((OpenBSD.neighMsgIPv6 k.pid i mac (zeroed 16)).1.bytes.take 160))
          k.write ∧
      OpenBSD.AddNeighbor k i mac ip = OpenBSD.AddNeighbor k i mac (zeroed 16) ∧
      Linux.AddNeighbor k i mac ip =
        { err := k.neighAdd,
          trace := [KernelReq.neighAdd
                      { LinkIndex := i.ps.netif.Index, Typ := Linux.FAMILY_V6,
                        State := Linux.NUD_PERMANENT, IP := ip, HardwareAddr := mac }] } := by
  have e4 : To4 ip = [] := To4_of_bad_length ip h4 h16
  have e16 : To16 ip = [] := To16_of_bad_length ip h4 h16
  have hn : OpenBSD.AddNeighbor k i mac ip =
      viaSocket k AF_ROUTE SOCK_RAW
        (KernelReq.write ((OpenBSD.neighMsgIPv6 k.pid i mac (zeroed 16)).1.bytes.take 160))
        k.write := by
    simp only [OpenBSD.AddNeighbor, e4, IPv4len, List.length_nil]
    rw [if_neg (by decide)]
    simp only [OpenBSD.addNeighborIPv6, OpenBSD.writeRtMsg,
      neighMsgIPv6_of_bad_length k.pid i mac ip h4 h16, neighMsgIPv6_hdr]
  refine ⟨?_, hn, ?_, ?_⟩
  · simp only [OpenBSD.AddAddr, e4, IPv4len, List.length_nil]
    rw [if_neg (by decide)]
    simp only [OpenBSD.addAddrIPv6, OpenBSD.aliasReqIPv6, OpenBSD.rawSockaddrInet6, e16]
    rfl
  · rw [hn]
    have z4 : To4 (zeroed 16) = [] := by decide
    simp only [OpenBSD.AddNeighbor, z4, IPv4len, List.length_nil]
    rw [if_neg (by decide)]
    simp only [OpenBSD.addNeighborIPv6, OpenBSD.writeRtMsg, neighMsgIPv6_hdr]
  · simp only [Linux.AddNeighbor, e4, IPv4len, List.length_nil]
    rw [if_neg (by decide)]
    rfl

/-- C5 witness: the 3-byte address 1.2.3. -/
theorem bad_ip_length_takes_ipv6_path_witness :
    OpenBSD.AddNeighbor kernelOk tap7 [1, 2, 3, 4, 5, 6] [1, 2, 3] =
      OpenBSD.AddNeighbor kernelOk tap7 [1, 2, 3, 4, 5, 6] (zeroed 16) :=
  (bad_ip_length_takes_ipv6_path kernelOk tap7 [1, 2, 3, 4, 5, 6] [1, 2, 3]
    ⟨[], [255, 255, 255, 0]⟩ (by decide) (by decide)).2.2.1

/-! ## C6: hardware addresses of a length other than 6 -/

/-- C6, as stated, fails: `SetHardwareAddr` with the 3-byte address 01:02:03
returns no error and sends a link-layer address request whose payload is the
3 bytes followed by zeros; with an 8-byte address it sends the first 6 bytes;
`AddNeighbor` with the 3-byte address returns no error after writing a
neighbor message whose gateway holds the 3 bytes followed by zeros. -/
theorem bad_mac_length_reaches_kernel :
    [1, 2, 3].length ≠ 6 ∧ [1, 2, 3, 4, 5, 6, 7, 8].length ≠ 6 ∧
      OpenBSD.SetHardwareAddr kernelOk tap7 [1, 2, 3] =
        { err := none,
          trace := [KernelReq.socket AF_INET SOCK_DGRAM,
                    KernelReq.ioctl IoctlReq.SIOCSIFLLADDR
                      (IoctlArg.lladdr
                        { Name := encodeName [116, 97, 112, 55],
                          Addr := { Len := 6, Family := AF_LINK,
                                    Data := [1, 2, 3, 0, 0, 0, 0, 0, 0, 0, 0, 0, 0, 0] } }),
                    KernelReq.close] } ∧
      OpenBSD.SetHardwareAddr kernelOk tap7 [1, 2, 3, 4, 5, 6, 7, 8] =
        { err := none,
          trace := [KernelReq.socket AF_INET SOCK_DGRAM,
                    KernelReq.ioctl IoctlReq.SIOCSIFLLADDR
                      (IoctlArg.lladdr
                        { Name := encodeName [116, 97, 112, 55],
                          Addr := { Len := 6, Family := AF_LINK,
                                    Data := [1, 2, 3, 4, 5, 6, 0, 0, 0, 0, 0, 0, 0, 0] } }),
                    KernelReq.close] } ∧
      (OpenBSD.AddNeighbor kernelOk tap7 [1, 2, 3] [10, 0, 0, 1]).err = none ∧
      (OpenBSD.AddNeighbor kernelOk tap7 [1, 2, 3] [10, 0, 0, 1]).trace =
        [KernelReq.socket AF_ROUTE SOCK_RAW,
         KernelReq.write
           ((OpenBSD.neighMsgIPv4 1234 tap7 [1, 2, 3] [10, 0, 0, 1]).1.bytes.take 144),
         KernelReq.close] ∧
      (((OpenBSD.neighMsgIPv4 1234 tap7 [1, 2, 3] [10, 0, 0, 1]).1.data.drop 16).take 32).drop 8 =
        [1, 2, 3] ++ zeroed 21 := by
  refine ⟨by decide, by decide, rfl, rfl, rfl, rfl, rfl⟩

/-- C6, amended: `SetHardwareAddr` and `AddNeighbor` do not validate the
length of the hardware address.  For every hardware address, of whatever
length, `SetHardwareAddr` opens the control socket and, when that succeeds,
sends the link-layer address request with declared length 6 whose payload is
the first `min(6, len)` bytes of the address followed by zero bytes; and the
gateway socket address of both neighbor messages has address length 6 and a
payload made of the first `min(6, len)` bytes of the address followed by zero
bytes. -/
theorem mac_length_not_validated (k : Kernel) (i : Interface) (addr ip : List Byte) :
    OpenBSD.SetHardwareAddr k i addr =
        viaSocket k AF_INET SOCK_DGRAM
          (KernelReq.ioctl IoctlReq.SIOCSIFLLADDR
            (IoctlArg.lladdr
              { Name := i.name,
                Addr := { Len := 6, Family := AF_LINK,
                          Data := addr.take 6 ++ zeroed (14 - min 6 addr.length) } }))
          (k.ioctl IoctlReq.SIOCSIFLLADDR) ∧
      OpenBSD.addNeighborIPv4 k i addr ip =
        viaSocket k AF_ROUTE SOCK_RAW
          (KernelReq.write ((OpenBSD.neighMsgIPv4 k.pid i addr ip).1.bytes.take 144)) k.write ∧
      OpenBSD.addNeighborIPv6 k i addr ip =
        viaSocket k AF_ROUTE SOCK_RAW
          (KernelReq.write ((OpenBSD.neighMsgIPv6 k.pid i addr ip).1.bytes.take 160)) k.write ∧
      ((OpenBSD.neighMsgIPv4 k.pid i addr ip).1.data.drop 16).take 32 =
        [32, AF_LINK] ++ le16 (uint16 i.ps.netif.Index) ++ [OpenBSD.IFT_ETHER, 0, 6, 0]
          ++ (addr.take 6 ++ zeroed (24 - min 6 addr.length)) ∧
      ((OpenBSD.neighMsgIPv6 k.pid i addr ip).1.data.drop 32).take 32 =
        [32, AF_LINK] ++ le16 (uint16 i.ps.netif.Index) ++ [OpenBSD.IFT_ETHER, 0, 6, 0]
          ++ (addr.take 6 ++ zeroed (24 - min 6 addr.length)) := by
  have hg : (OpenBSD.gateway i addr).bytes =
      [32, AF_LINK] ++ le16 (uint16 i.ps.netif.Index) ++ [OpenBSD.IFT_ETHER, 0, 6, 0]
        ++ (addr.take 6 ++ zeroed (24 - min 6 addr.length)) := by
    rw [← datalink_data]; rfl
  refine ⟨?_, ?_, ?_, ?_, ?_⟩
  · have hd : copy ((zeroed 14).take 6) addr ++ (zeroed 14).drop 6 =
        addr.take 6 ++ zeroed (14 - min 6 addr.length) := by
      have h6 : (6 ⊓ 14 : Nat) = 6 := rfl
      simp only [copy, take_zeroed, drop_zeroed, length_zeroed, h6]
      rw [List.append_assoc, zeroed_append]
      congr 2
      omega
    simp only [OpenBSD.SetHardwareAddr, OpenBSD.lladdrReq, hd]
  · simp only [OpenBSD.addNeighborIPv4, OpenBSD.writeRtMsg, neighMsgIPv4_hdr]
  · simp only [OpenBSD.addNeighborIPv6, OpenBSD.writeRtMsg, neighMsgIPv6_hdr]
  · rw [neighMsgIPv4_gateway_region, hg]
  · rw [neighMsgIPv6_gateway_region, hg]

theorem testBit_three (n : Nat) : Nat.testBit 3 n = true ↔ (n = 0 ∨ n = 1) := by
  match n with
  | 0 => decide
  | 1 => decide
  | n + 2 =>
    have h : 3 < 2 ^ (n + 2) := by
      have : 2 ^ 2 ≤ 2 ^ (n + 2) := Nat.pow_le_pow_right (by decide) (by omega)
      omega
    simp [Nat.testBit_lt_two_pow h]

/-! ## C7: lengths of the neighbor message -/

/-- C7: for every MAC and IP address (so for every 6-byte MAC and every IPv4
or IPv6 address), the message built by `addNeighborIPv4` and by
`addNeighborIPv6` has `Msglen` equal to the header size plus the padded sizes
of its two socket addresses, the padded size being the least multiple of 8
that is at least the address's declared length `Len`; `Hdrlen` equals the
header size; and the buffer written to the routing socket is
`rtMsgBytes[:Msglen]`, which holds exactly `Msglen` bytes. -/
theorem neigh_msg_lengths (k : Kernel) (i : Interface) (mac ip : List Byte) :
    (∀ n, 8 ∣ pad8 n ∧ n ≤ pad8 n ∧ ∀ m, 8 ∣ m → n ≤ m → pad8 n ≤ m) ∧
      (OpenBSD.neighMsgIPv4 k.pid i mac ip).1.hdr.Msglen =
        OpenBSD.SizeofRtMsghdr + pad8 (OpenBSD.rawSockaddrInet4 (To4 ip)).Len
          + pad8 (OpenBSD.gateway i mac).Len ∧
      (OpenBSD.neighMsgIPv4 k.pid i mac ip).1.hdr.Hdrlen = OpenBSD.SizeofRtMsghdr ∧
      OpenBSD.addNeighborIPv4 k i mac ip =
        viaSocket k AF_ROUTE SOCK_RAW
          (KernelReq.write ((OpenBSD.neighMsgIPv4 k.pid i mac ip).1.bytes.take
            (OpenBSD.neighMsgIPv4 k.pid i mac ip).1.hdr.Msglen)) k.write ∧
      ((OpenBSD.neighMsgIPv4 k.pid i mac ip).1.bytes.take
          (OpenBSD.neighMsgIPv4 k.pid i mac ip).1.hdr.Msglen).length =
        (OpenBSD.neighMsgIPv4 k.pid i mac ip).1.hdr.Msglen ∧
      (OpenBSD.neighMsgIPv6 k.pid i mac ip).1.hdr.Msglen =
        OpenBSD.SizeofRtMsghdr + pad8 (OpenBSD.rawSockaddrInet6 (To16 ip)).Len
          + pad8 (OpenBSD.gateway i mac).Len ∧
      (OpenBSD.neighMsgIPv6 k.pid i mac ip).1.hdr.Hdrlen = OpenBSD.SizeofRtMsghdr ∧
      OpenBSD.addNeighborIPv6 k i mac ip =
        viaSocket k AF_ROUTE SOCK_RAW
          (KernelReq.write ((OpenBSD.neighMsgIPv6 k.pid i mac ip).1.bytes.take
            (OpenBSD.neighMsgIPv6 k.pid i mac ip).1.hdr.Msglen)) k.write ∧
      ((OpenBSD.neighMsgIPv6 k.pid i mac ip).1.bytes.take
          (OpenBSD.neighMsgIPv6 k.pid i mac ip).1.hdr.Msglen).length =
        (OpenBSD.neighMsgIPv6 k.pid i mac ip).1.hdr.Msglen := by
  have l4 : (OpenBSD.rawSockaddrInet4 (To4 ip)).Len = 16 := rfl
  have l6 : (OpenBSD.rawSockaddrInet6 (To16 ip)).Len = 28 := rfl
  have lg : (OpenBSD.gateway i mac).Len = 32 := rfl
  have p16 : pad8 16 = 16 := by decide
  have p28 : pad8 28 = 32 := by decide
  have p32 : pad8 32 = 32 := by decide
  have hs : OpenBSD.SizeofRtMsghdr = 96 := rfl
  refine ⟨pad8_least, ?_, ?_, rfl, ?_, ?_, ?_, rfl, ?_⟩
  · rw [neighMsgIPv4_hdr, l4, lg, p16, p32, hs]
  · rw [neighMsgIPv4_hdr, hs]
  · rw [List.length_take, length_bytes_IPv4, neighMsgIPv4_hdr]
    rfl
  · rw [neighMsgIPv6_hdr, l6, lg, p28, p32, hs]
  · rw [neighMsgIPv6_hdr, hs]
  · rw [List.length_take, length_bytes_IPv6, neighMsgIPv6_hdr]
    rfl

/-! ## C8: the address bitmask and the order of the addresses -/

/-- C8: for every MAC and IP, the header's `Addrs` of both neighbor messages
equals `RTA_DST | RTA_GATEWAY`, whose only set bits are bit 0 (`RTA_DST`) and
bit 1 (`RTA_GATEWAY`); the variable region holds the destination socket
address at offset 0 and the gateway socket address right after the padded
size of the destination. -/
theorem neigh_msg_addrs_and_order (pid : Nat) (i : Interface) (mac ip : List Byte) :
    OpenBSD.RTA_DST = 2 ^ 0 ∧ OpenBSD.RTA_GATEWAY = 2 ^ 1 ∧
      (OpenBSD.neighMsgIPv4 pid i mac ip).1.hdr.Addrs = OpenBSD.RTA_DST ||| OpenBSD.RTA_GATEWAY ∧
      (∀ n, (OpenBSD.neighMsgIPv4 pid i mac ip).1.hdr.Addrs.testBit n = true ↔ (n = 0 ∨ n = 1)) ∧
      (OpenBSD.neighMsgIPv4 pid i mac ip).1.data.take
          (OpenBSD.rawSockaddrInet4 (To4 ip)).bytes.length =
        (OpenBSD.rawSockaddrInet4 (To4 ip)).bytes ∧
      ((OpenBSD.neighMsgIPv4 pid i mac ip).1.data.drop
          (pad8 (OpenBSD.rawSockaddrInet4 (To4 ip)).Len)).take (OpenBSD.gateway i mac).bytes.length =
        (OpenBSD.gateway i mac).bytes ∧
      (OpenBSD.neighMsgIPv6 pid i mac ip).1.hdr.Addrs = OpenBSD.RTA_DST ||| OpenBSD.RTA_GATEWAY ∧
      (∀ n, (OpenBSD.neighMsgIPv6 pid i mac ip).1.hdr.Addrs.testBit n = true ↔ (n = 0 ∨ n = 1)) ∧
      (OpenBSD.neighMsgIPv6 pid i mac ip).1.data.take
          (OpenBSD.rawSockaddrInet6 (To16 ip)).bytes.length =
        (OpenBSD.rawSockaddrInet6 (To16 ip)).bytes ∧
      ((OpenBSD.neighMsgIPv6 pid i mac ip).1.data.drop
          (pad8 (OpenBSD.rawSockaddrInet6 (To16 ip)).Len)).take (OpenBSD.gateway i mac).bytes.length =
        (OpenBSD.gateway i mac).bytes := by
  have l4 : pad8 (OpenBSD.rawSockaddrInet4 (To4 ip)).Len = 16 := by
    have : (OpenBSD.rawSockaddrInet4 (To4 ip)).Len = 16 := rfl
    rw [this]; decide
  have l6 : pad8 (OpenBSD.rawSockaddrInet6 (To16 ip)).Len = 32 := by
    have : (OpenBSD.rawSockaddrInet6 (To16 ip)).Len = 28 := rfl
    rw [this]; decide
  have h3 : OpenBSD.RTA_DST ||| OpenBSD.RTA_GATEWAY = 3 := by decide
  refine ⟨rfl, rfl, ?_, ?_, ?_, ?_, ?_, ?_, ?_, ?_⟩
  · rw [neighMsgIPv4_hdr, h3]
  · intro n; rw [neighMsgIPv4_hdr]; exact testBit_three n
  · rw [length_bytes_inet4]; exact neighMsgIPv4_dst_region pid i mac ip
  · rw [l4, length_bytes_gateway]; exact neighMsgIPv4_gateway_region pid i mac ip
  · rw [neighMsgIPv6_hdr, h3]
  · intro n; rw [neighMsgIPv6_hdr]; exact testBit_three n
  · rw [length_bytes_inet6]; exact neighMsgIPv6_dst_region pid i mac ip
  · rw [l6, length_bytes_gateway]; exact neighMsgIPv6_gateway_region pid i mac ip

/-! ## C9: the gateway socket address carries the MAC -/

/-- C9: for every 6-byte MAC, the socket address `rawSockaddrDatalink` builds
has family AF_LINK, address length 6 and name length 0, its 24 payload bytes
are the 6 MAC bytes in order followed by 18 zero bytes, and the gateway region
of both neighbor messages is the memory image of that socket address (with the
interface index filled in): family byte AF_LINK, name length 0, address
length 6, then the MAC and 18 zero bytes. -/
theorem gateway_embeds_mac (pid : Nat) (i : Interface) (mac ip : List Byte)
    (hmac : mac.length = 6) :
    (OpenBSD.rawSockaddrDatalink mac).Family = AF_LINK ∧
      (OpenBSD.rawSockaddrDatalink mac).Alen = 6 ∧
      (OpenBSD.rawSockaddrDatalink mac).Nlen = 0 ∧
      (OpenBSD.rawSockaddrDatalink mac).Data.take 6 = mac ∧
      (OpenBSD.rawSockaddrDatalink mac).Data.drop 6 = zeroed 18 ∧
      ((OpenBSD.neighMsgIPv4 pid i mac ip).1.data.drop 16).take 32 =
        [OpenBSD.SizeofSockaddrDatalink, AF_LINK] ++ le16 (uint16 i.ps.netif.Index)
          ++ [OpenBSD.IFT_ETHER, 0, 6, 0] ++ mac ++ zeroed 18 ∧
      ((OpenBSD.neighMsgIPv6 pid i mac ip).1.data.drop 32).take 32 =
        [OpenBSD.SizeofSockaddrDatalink, AF_LINK] ++ le16 (uint16 i.ps.netif.Index)
          ++ [OpenBSD.IFT_ETHER, 0, 6, 0] ++ mac ++ zeroed 18 := by
  have hd : (OpenBSD.rawSockaddrDatalink mac).Data = mac ++ zeroed 18 := by
    rw [datalink_data, hmac, List.take_of_length_le (Nat.le_of_eq hmac)]
    rfl
  have hg : (OpenBSD.gateway i mac).bytes =
      [OpenBSD.SizeofSockaddrDatalink, AF_LINK] ++ le16 (uint16 i.ps.netif.Index)
        ++ [OpenBSD.IFT_ETHER, 0, 6, 0] ++ mac ++ zeroed 18 := by
    rw [List.append_assoc _ mac, ← hd]; rfl
  refine ⟨rfl, rfl, rfl, ?_, ?_, ?_, ?_⟩
  · rw [hd, List.take_left' hmac]
  · rw [hd, List.drop_left' hmac]
  · rw [neighMsgIPv4_gateway_region, hg]
  · rw [neighMsgIPv6_gateway_region, hg]

/-- C9 witness: the MAC 01:02:03:04:05:06 in the messages for 10.0.0.1. -/
theorem gateway_embeds_mac_witness :
    (OpenBSD.rawSockaddrDatalink [1, 2, 3, 4, 5, 6]).Data.take 6 = [1, 2, 3, 4, 5, 6] ∧
      (OpenBSD.rawSockaddrDatalink [1, 2, 3, 4, 5, 6]).Data.drop 6 = zeroed 18 :=
  ⟨(gateway_embeds_mac 1234 tap7 [1, 2, 3, 4, 5, 6] [10, 0, 0, 1] (by decide)).2.2.2.1,
   (gateway_embeds_mac 1234 tap7 [1, 2, 3, 4, 5, 6] [10, 0, 0, 1] (by decide)).2.2.2.2.1⟩

/-! ## C10: the interface index in the header -/

/-- C10, as stated, fails for the IPv6 message: on the handle "tap7", whose
interface index is 3, the header's `Index` of the IPv6 neighbor message is 0
while its gateway socket address carries index 3. -/
theorem ipv6_header_index_is_zero :
    tap7.ps.netif.Index = 3 ∧
      (OpenBSD.neighMsgIPv6 1234 tap7 [1, 2, 3, 4, 5, 6]
        [32, 1, 13, 184, 0, 0, 0, 0, 0, 0, 0, 0, 0, 0, 0, 1]).1.hdr.Index = 0 ∧
      (((OpenBSD.neighMsgIPv6 1234 tap7 [1, 2, 3, 4, 5, 6]
        [32, 1, 13, 184, 0, 0, 0, 0, 0, 0, 0, 0, 0, 0, 0, 1]).1.data.drop 32).take 32).take 4 =
        [32, AF_LINK, 3, 0] := by
  refine ⟨rfl, rfl, rfl⟩

/-- C10, amended: in the IPv4 neighbor message the header's `Index` is
`uint16(netif.Index)`, the interface index of the handle (reduced modulo
65536), the same value the gateway socket address carries; in the IPv6
neighbor message the header's `Index` is left 0 (the assignment is commented
out) and only the gateway socket address carries `uint16(netif.Index)`. -/
theorem header_index_only_ipv4 (pid : Nat) (i : Interface) (mac ip : List Byte) :
    (OpenBSD.neighMsgIPv4 pid i mac ip).1.hdr.Index = i.ps.netif.Index % 65536 ∧
      (OpenBSD.neighMsgIPv6 pid i mac ip).1.hdr.Index = 0 ∧
      (OpenBSD.gateway i mac).Index = i.ps.netif.Index % 65536 ∧
      ((OpenBSD.neighMsgIPv4 pid i mac ip).1.data.drop 16).take 32 =
        (OpenBSD.gateway i mac).bytes ∧
      ((OpenBSD.neighMsgIPv6 pid i mac ip).1.data.drop 32).take 32 =
        (OpenBSD.gateway i mac).bytes ∧
      ((OpenBSD.gateway i mac).bytes.drop 2).take 2 = le16 (i.ps.netif.Index % 65536) := by
  refine ⟨?_, ?_, rfl, neighMsgIPv4_gateway_region pid i mac ip,
    neighMsgIPv6_gateway_region pid i mac ip, rfl⟩
  · rw [neighMsgIPv4_hdr]; rfl
  · rw [neighMsgIPv6_hdr]

/-! ## C11: group names -/

/-- C11: `newGroupReq` returns an error exactly when the group name is empty
or has at least IFNAMSIZ bytes (the empty name gives the "group is empty"
error, a name of 16 bytes or more the "too long" error), and for every name of
1 to 15 bytes it returns a request whose `Name` is the interface name and
whose `Group` buffer holds the group bytes followed by NUL padding up to 16
bytes. -/
theorem newGroupReq_accepts_iff (name group : List Byte) :
    ((∃ e, OpenBSD.newGroupReq name group = .error e) ↔
        (group.length = 0 ∨ IFNAMSIZ ≤ group.length)) ∧
      OpenBSD.newGroupReq name group =
        (if group.length = 0 then .error OpenBSD.GroupError.groupEmpty
         else if IFNAMSIZ ≤ group.length then .error OpenBSD.GroupError.groupTooLong
         else .ok { Name := name, GroupLen := 0,
                    Group := group ++ zeroed (IFNAMSIZ - group.length) }) ∧
      (zeroed IFNAMSIZ).length = 16 ∧
      (group ++ zeroed (IFNAMSIZ - group.length)).length = max 16 group.length := by
  have hnil : group = [] ↔ group.length = 0 := List.length_eq_zero.symm
  have hform : OpenBSD.newGroupReq name group =
      (if group.length = 0 then .error OpenBSD.GroupError.groupEmpty
       else if IFNAMSIZ ≤ group.length then .error OpenBSD.GroupError.groupTooLong
       else .ok { Name := name, GroupLen := 0,
                  Group := group ++ zeroed (IFNAMSIZ - group.length) }) := by
    unfold OpenBSD.newGroupReq
    by_cases h0 : group.length = 0
    · rw [if_pos (hnil.mpr h0), if_pos h0]
    · rw [if_neg (fun h => h0 (hnil.mp h)), if_neg h0]
      by_cases h16 : IFNAMSIZ ≤ group.length
      · rw [if_pos h16, if_pos h16]
      · rw [if_neg h16, if_neg h16, copy_zeroed_of_le group IFNAMSIZ (by omega)]
  refine ⟨?_, hform, rfl, ?_⟩
  · rw [hform]
    by_cases h0 : group.length = 0
    · simp [h0]
    · by_cases h16 : IFNAMSIZ ≤ group.length
      · simp [h0, h16]
      · simp [h0, h16]
  · simp only [List.length_append, length_zeroed, IFNAMSIZ]
    omega

/-! ## C12: SetUp changes only the up bit -/

theorem not16_IFF_UP_testBit (n : Nat) :
    (OpenBSD.not16 OpenBSD.IFF_UP).testBit n = (decide (n < 16) && decide (n ≠ 0)) := by
  have h1 : uint16 OpenBSD.IFF_UP = 1 := by decide
  unfold OpenBSD.not16
  rw [h1, Nat.testBit_xor, Nat.testBit_two_pow_sub_one]
  by_cases h0 : n = 0
  · subst h0; decide
  · have : Nat.testBit 1 n = false := by
      cases hb : Nat.testBit 1 n
      · rfl
      · exact absurd (Nat.testBit_one_eq_true_iff_self_eq_zero.mp hb) h0
    rw [this]
    by_cases h16 : n < 16 <;> simp [h0, h16]

theorem upFlags_testBit (f : Nat) (updown : Bool) (hf : f < 2 ^ 16) (n : Nat) :
    (OpenBSD.upFlags f updown).testBit n = if n = 0 then updown else f.testBit n := by
  have hhigh : ¬ n < 16 → f.testBit n = false := fun h =>
    Nat.testBit_lt_two_pow
      (Nat.lt_of_lt_of_le hf (Nat.pow_le_pow_right (by decide) (by omega)))
  cases updown
  · have e : OpenBSD.upFlags f false = f &&& OpenBSD.not16 OpenBSD.IFF_UP := rfl
    rw [e, Nat.testBit_and, not16_IFF_UP_testBit]
    by_cases h0 : n = 0
    · simp [h0]
    · by_cases h16 : n < 16
      · simp [h0, h16]
      · simp [h0, h16, hhigh h16]
  · have e : OpenBSD.upFlags f true = f ||| OpenBSD.IFF_UP := rfl
    rw [e, Nat.testBit_or]
    by_cases h0 : n = 0
    · subst h0
      have : Nat.testBit OpenBSD.IFF_UP 0 = true := by decide
      simp [this]
    · have : Nat.testBit OpenBSD.IFF_UP n = false := by
        cases hb : Nat.testBit OpenBSD.IFF_UP n
        · rfl
        · exact absurd (Nat.testBit_one_eq_true_iff_self_eq_zero.mp hb) h0
      simp [h0, this]

theorem upFlags_lt (f : Nat) (updown : Bool) (hf : f < 2 ^ 16) :
    OpenBSD.upFlags f updown < 2 ^ 16 := by
  cases updown
  · exact Nat.lt_of_le_of_lt Nat.and_le_left hf
  · exact Nat.or_lt_two_pow hf (by decide)

theorem upFlags_idem (f : Nat) (updown : Bool) (hf : f < 2 ^ 16) :
    OpenBSD.upFlags (OpenBSD.upFlags f updown) updown = OpenBSD.upFlags f updown := by
  apply Nat.eq_of_testBit_eq
  intro n
  rw [upFlags_testBit _ updown (upFlags_lt f updown hf) n, upFlags_testBit f updown hf n]
  by_cases h0 : n = 0 <;> simp [h0]

theorem upFlags_noop (f : Nat) (updown : Bool) (hf : f < 2 ^ 16)
    (hsame : f.testBit 0 = updown) : OpenBSD.upFlags f updown = f := by
  apply Nat.eq_of_testBit_eq
  intro n
  rw [upFlags_testBit f updown hf n]
  by_cases h0 : n = 0
  · subst h0; rw [if_pos rfl, hsame]
  · rw [if_neg h0]

/-- C12: when the control socket opens and SIOCGIFFLAGS succeeds, for every
16-bit flags value the kernel returns, `SetUp(updown)` writes back with
SIOCSIFFLAGS a 16-bit value whose up bit (bit 0, IFF_UP) equals `updown` and
whose every other bit equals its value in the flags read; a second identical
call, reading the value just written, writes that same value again; and when
the up bit already equals `updown` the value written is the value read. -/
theorem setUp_changes_only_up_bit (k : Kernel) (i : Interface) (updown : Bool)
    (hf : k.flags < 2 ^ 16) (hs : k.socket AF_INET = none)
    (hg : k.ioctl IoctlReq.SIOCGIFFLAGS = none) :
    OpenBSD.SetUp k i updown =
        { err := k.ioctl IoctlReq.SIOCSIFFLAGS,
          trace := [KernelReq.socket AF_INET SOCK_DGRAM,
                    KernelReq.ioctl IoctlReq.SIOCGIFFLAGS
                      (IoctlArg.flags { Name := i.name, Flags := 0 }),
                    KernelReq.ioctl IoctlReq.SIOCSIFFLAGS
                      (IoctlArg.flags { Name := i.name,
                                        Flags := OpenBSD.upFlags k.flags updown }),
                    KernelReq.close] } ∧
      OpenBSD.IFF_UP = 2 ^ 0 ∧
      (OpenBSD.upFlags k.flags updown).testBit 0 = updown ∧
      (∀ n, n ≠ 0 → (OpenBSD.upFlags k.flags updown).testBit n = k.flags.testBit n) ∧
      OpenBSD.upFlags k.flags updown < 2 ^ 16 ∧
      OpenBSD.SetUp { k with flags := OpenBSD.upFlags k.flags updown } i updown =
        OpenBSD.SetUp k i updown ∧
      (k.flags.testBit 0 = updown → OpenBSD.upFlags k.flags updown = k.flags) := by
  have hu : uint16 k.flags = k.flags := Nat.mod_eq_of_lt hf
  have hw := upFlags_lt k.flags updown hf
  have hu2 : uint16 (OpenBSD.upFlags k.flags updown) = OpenBSD.upFlags k.flags updown :=
    Nat.mod_eq_of_lt hw
  refine ⟨?_, rfl, ?_, ?_, hw, ?_, upFlags_noop k.flags updown hf⟩
  · simp only [OpenBSD.SetUp, hs, hg, hu]
  · rw [upFlags_testBit k.flags updown hf 0, if_pos rfl]
  · intro n hn
    rw [upFlags_testBit k.flags updown hf n, if_neg hn]
  · simp only [OpenBSD.SetUp, hs, hg, hu, hu2, upFlags_idem k.flags updown hf]

/-- C12 witness: bringing up an interface whose flags are 0x8842 writes
0x8843. -/
theorem setUp_changes_only_up_bit_witness :
    OpenBSD.SetUp kernelOk tap7 true =
      { err := none,
        trace := [KernelReq.socket AF_INET SOCK_DGRAM,
                  KernelReq.ioctl IoctlReq.SIOCGIFFLAGS
                    (IoctlArg.flags { Name := tap7.name, Flags := 0 }),
                  KernelReq.ioctl IoctlReq.SIOCSIFFLAGS
                    (IoctlArg.flags { Name := tap7.name,
                                      Flags := OpenBSD.upFlags 0x8842 true }),
                  KernelReq.close] } ∧
      OpenBSD.upFlags 0x8842 true = 0x8843 :=
  ⟨(setUp_changes_only_up_bit kernelOk tap7 true (by decide) rfl rfl).1, by decide⟩

/-! ## C13: the MTU request -/

theorem int32_of_lt (sz : Nat) (hsz : sz < 2 ^ 31) : int32 sz = (sz : Int) := by
  have h32 : sz % 2 ^ 32 = sz := Nat.mod_eq_of_lt (by omega)
  unfold int32
  rw [h32, if_pos hsz]

/-- C13: for every handle and every size `sz` that fits in a signed 32-bit
integer, the request `SetMTU` sends with SIOCSIFMTU has the handle's name
buffer as its name field and `sz` as its 32-bit signed MTU field. -/
theorem setMTU_request_fields (k : Kernel) (i : Interface) (sz : Nat) (hsz : sz < 2 ^ 31) :
    OpenBSD.SetMTU k i sz =
        viaSocket k AF_INET SOCK_DGRAM
          (KernelReq.ioctl IoctlReq.SIOCSIFMTU (IoctlArg.mtu { Name := i.name, MTU := (sz : Int) }))
          (k.ioctl IoctlReq.SIOCSIFMTU) ∧
      int32 sz = (sz : Int) ∧ -(2 ^ 31 : Int) ≤ int32 sz ∧ int32 sz < (2 ^ 31 : Int) := by
  have h := int32_of_lt sz hsz
  refine ⟨?_, h, ?_, ?_⟩
  · simp only [OpenBSD.SetMTU, h]
  · rw [h]; omega
  · rw [h]; omega

/-- C13 witness: `SetMTU(1400)` on the handle "tap7" sends a request whose MTU
field is 1400 and whose name field decodes to "tap7". -/
theorem setMTU_request_fields_witness :
    OpenBSD.SetMTU kernelOk tap7 1400 =
        viaSocket kernelOk AF_INET SOCK_DGRAM
          (KernelReq.ioctl IoctlReq.SIOCSIFMTU
            (IoctlArg.mtu { Name := tap7.name, MTU := ((1400 : Nat) : Int) }))
          (kernelOk.ioctl IoctlReq.SIOCSIFMTU) ∧
      ByteSliceToString tap7.name = [116, 97, 112, 55] :=
  ⟨(setMTU_request_fields kernelOk tap7 1400 (by decide)).1, by decide⟩

/-! ## C16: the link-layer address request -/

theorem lladdrReq_data (i : Interface) (addr : List Byte) :
    (OpenBSD.lladdrReq i addr).Addr.Data = addr.take 6 ++ zeroed (14 - min 6 addr.length) := by
  have h6 : (6 ⊓ 14 : Nat) = 6 := rfl
  simp only [OpenBSD.lladdrReq, copy, take_zeroed, drop_zeroed, length_zeroed, h6]
  rw [List.append_assoc, zeroed_append]
  congr 2
  omega

/-- C16: for every handle and every 6-byte MAC, the request `SetHardwareAddr`
sends with SIOCSIFLLADDR has the handle's name buffer as its name field and a
socket address with declared length 6 and family AF_LINK whose 14 payload
bytes are the 6 MAC bytes, unchanged and starting at payload offset 0,
followed by 8 zero bytes. -/
theorem lladdr_request_embeds_mac (k : Kernel) (i : Interface) (mac : List Byte)
    (hmac : mac.length = 6) :
    OpenBSD.SetHardwareAddr k i mac =
        viaSocket k AF_INET SOCK_DGRAM
          (KernelReq.ioctl IoctlReq.SIOCSIFLLADDR
            (IoctlArg.lladdr
              { Name := i.name,
                Addr := { Len := 6, Family := AF_LINK, Data := mac ++ zeroed 8 } }))
          (k.ioctl IoctlReq.SIOCSIFLLADDR) ∧
      (OpenBSD.lladdrReq i mac).Name = i.name ∧
      (OpenBSD.lladdrReq i mac).Addr.Len = 6 ∧
      (OpenBSD.lladdrReq i mac).Addr.Family = AF_LINK ∧
      (OpenBSD.lladdrReq i mac).Addr.Data.take 6 = mac ∧
      (OpenBSD.lladdrReq i mac).Addr.Data.drop 6 = zeroed 8 ∧
      (OpenBSD.lladdrReq i mac).Addr.Data.length = 14 := by
  have hd : (OpenBSD.lladdrReq i mac).Addr.Data = mac ++ zeroed 8 := by
    rw [lladdrReq_data, hmac, List.take_of_length_le (Nat.le_of_eq hmac)]
    rfl
  have hreq : OpenBSD.lladdrReq i mac =
      { Name := i.name, Addr := { Len := 6, Family := AF_LINK, Data := mac ++ zeroed 8 } } := by
    rw [← hd]; rfl
  refine ⟨?_, rfl, rfl, rfl, ?_, ?_, ?_⟩
  · simp only [OpenBSD.SetHardwareAddr, hreq]
  · rw [hd, List.take_left' hmac]
  · rw [hd, List.drop_left' hmac]
  · rw [hd, List.length_append, hmac, length_zeroed]

/-- C16 witness: the MAC 01:02:03:04:05:06 on the handle "tap7". -/
theorem lladdr_request_embeds_mac_witness :
    OpenBSD.SetHardwareAddr kernelOk tap7 [1, 2, 3, 4, 5, 6] =
      viaSocket kernelOk AF_INET SOCK_DGRAM
        (KernelReq.ioctl IoctlReq.SIOCSIFLLADDR
          (IoctlArg.lladdr
            { Name := tap7.name,
              Addr := { Len := 6, Family := AF_LINK,
                        Data := [1, 2, 3, 4, 5, 6] ++ zeroed 8 } }))
        (kernelOk.ioctl IoctlReq.SIOCSIFLLADDR) :=
  (lladdr_request_embeds_mac kernelOk tap7 [1, 2, 3, 4, 5, 6] (by decide)).1

/-! ## The device loop of the ioctl backend -/

theorem wrapInt_of_lt (n : Nat) (h : n < 2 ^ 63) : wrapInt (n : Int) = (n : Int) := by
  unfold wrapInt
  have h2 : (n : Int) < 2 ^ 63 := by exact_mod_cast h
  omega

theorem digitsRev_ne_zero (fuel : Nat) : ∀ n b, b ∈ digitsRev fuel n → b ≠ 0 := by
  induction fuel with
  | zero => intro n b hb; simp [digitsRev] at hb
  | succ fuel ih =>
    intro n b hb
    unfold digitsRev at hb
    split at hb
    · have hb2 : b = 48 + n := List.mem_singleton.mp hb
      rw [hb2]
      exact Nat.ne_of_gt (Nat.lt_of_lt_of_le (by decide) (Nat.le_add_right 48 n))
    · rcases List.mem_cons.mp hb with h | h
      · rw [h]
        exact Nat.ne_of_gt (Nat.lt_of_lt_of_le (by decide) (Nat.le_add_right 48 (n % 10)))
      · exact ih _ b h

theorem length_digitsRev (fuel : Nat) :
    ∀ k n, n < 10 ^ (k + 1) → (digitsRev fuel n).length ≤ k + 1 := by
  induction fuel with
  | zero => intro k n _; simp [digitsRev]
  | succ fuel ih =>
    intro k n hn
    unfold digitsRev
    split
    · simp
    · rename_i h10
      cases k with
      | zero => simp at hn; omega
      | succ k =>
        have hdiv : n / 10 < 10 ^ (k + 1) := by
          rw [Nat.div_lt_iff_lt_mul (by decide)]
          rw [Nat.pow_succ] at hn
          exact hn
        have := ih k (n / 10) hdiv
        simp only [List.length_cons]
        omega

theorem fmtInt_ofNat (n : Nat) : fmtInt (n : Int) = (digitsRev (n + 1) n).reverse := by
  unfold fmtInt
  rw [if_neg (by omega)]
  simp

theorem tapName_decodes (n : Nat) (h : n < 10 ^ 13) :
    ByteSliceToString (encodeName (OpenBSD.tapName n)) = OpenBSD.tapName n := by
  have hlen : (OpenBSD.tapName n).length ≤ IFNAMSIZ := by
    have := length_digitsRev (n + 1) 12 n h
    simp only [OpenBSD.tapName, fmtInt_ofNat, List.length_append, List.length_reverse,
      List.length_cons, List.length_nil, IFNAMSIZ]
    omega
  have hnz : ∀ b ∈ OpenBSD.tapName n, b ≠ 0 := by
    intro b hb
    simp only [OpenBSD.tapName, fmtInt_ofNat, List.mem_append, List.mem_reverse] at hb
    rcases hb with hb | hb
    · intro h0
      rw [h0] at hb
      exact absurd hb (by decide)
    · exact digitsRev_ne_zero _ _ b hb
  rw [encodeName, copy_zeroed_of_le _ _ hlen]
  exact ByteSliceToString_append_zeroed _ _ hnz

theorem openLoop_skips_failed (d : OpenBSD.Devices) (fuel : Nat) :
    ∀ m s : Nat, s + m < 2 ^ 63 →
      (∀ j : Nat, s ≤ j → j < s + m → ∃ e, d.openTap (j : Int) = OpenBSD.OpenResult.failed e) →
      OpenBSD.openLoop d (m + fuel) (s : Int) =
        ((OpenBSD.openLoop d fuel ((s + m : Nat) : Int)).1,
         (List.range' s m).map Int.ofNat ++ (OpenBSD.openLoop d fuel ((s + m : Nat) : Int)).2) := by
  intro m
  induction m with
  | zero => intro s _ _; simp
  | succ m ih =>
    intro s hs hfail
    obtain ⟨e, he⟩ := hfail s (Nat.le_refl s) (by omega)
    have hw : wrapInt ((s : Int) + 1) = ((s + 1 : Nat) : Int) := by
      have := wrapInt_of_lt (s + 1) (by omega)
      simpa using this
    have hrec := ih (s + 1) (by omega) (fun j hj1 hj2 => hfail j (by omega) (by omega))
    have hfuel : m + 1 + fuel = (m + fuel) + 1 := by omega
    have hidx : s + 1 + m = s + (m + 1) := by omega
    rw [hfuel]
    simp only [OpenBSD.openLoop, he, hw, hrec, hidx, List.range'_succ, List.map_cons,
      List.cons_append]
    rfl

theorem openLoop_reaches (d : OpenBSD.Devices) (fuel i : Nat) (hi : i < 2 ^ 63)
    (hbefore : ∀ j : Nat, j < i → ∃ e, d.openTap (j : Int) = OpenBSD.OpenResult.failed e) :
    OpenBSD.openLoop d (i + fuel) 0 =
      ((OpenBSD.openLoop d fuel (i : Int)).1,
       (List.range i).map Int.ofNat ++ (OpenBSD.openLoop d fuel (i : Int)).2) := by
  have h := openLoop_skips_failed d fuel i 0 (by omega)
    (fun j _ hj => hbefore j (by omega))
  simp only [Nat.zero_add] at h
  rw [List.range_eq_range']
  exact h

theorem map_range_succ (i : Nat) :
    (List.range (i + 1)).map Int.ofNat = (List.range i).map Int.ofNat ++ [(i : Int)] := by
  rw [List.range_succ, List.map_append]
  rfl

theorem afterOpen_name (d : OpenBSD.Devices) (i : Int) (tried : List Int) :
    (OpenBSD.afterOpen d i tried).tried = tried ∧
      ((OpenBSD.afterOpen d i tried).err = none →
        (OpenBSD.afterOpen d i tried).name = encodeName (OpenBSD.tapName i) ∧
          (OpenBSD.afterOpen d i tried).fd = some i) := by
  unfold OpenBSD.afterOpen
  split
  · simp
  · simp only []
    split
    · simp
    · split
      · simp
      · simp [encodeName]

theorem openLoop_ok (d : OpenBSD.Devices) (fuel : Nat) (c : Int)
    (h : d.openTap c = OpenBSD.OpenResult.ok) :
    OpenBSD.openLoop d (fuel + 1) c = (OpenBSD.LoopEnd.opened c, [c]) := by
  simp only [OpenBSD.openLoop, h]

theorem openLoop_notExist (d : OpenBSD.Devices) (fuel : Nat) (c : Int)
    (h : d.openTap c = OpenBSD.OpenResult.notExist) :
    OpenBSD.openLoop d (fuel + 1) c = (OpenBSD.LoopEnd.noUsableDevs, [c]) := by
  simp only [OpenBSD.openLoop, h]

theorem openLoop_failed (d : OpenBSD.Devices) (fuel : Nat) (c : Int) (e : Nat)
    (h : d.openTap c = OpenBSD.OpenResult.failed e) :
    OpenBSD.openLoop d (fuel + 1) c =
      ((OpenBSD.openLoop d fuel (wrapInt (c + 1))).1,
       c :: (OpenBSD.openLoop d fuel (wrapInt (c + 1))).2) := by
  simp only [OpenBSD.openLoop, h]

theorem openLoop_running (d : OpenBSD.Devices)
    (hall : ∀ c : Int, ∃ e, d.openTap c = OpenBSD.OpenResult.failed e) (fuel : Nat) :
    ∀ c : Int, (OpenBSD.openLoop d fuel c).1 = OpenBSD.LoopEnd.running := by
  induction fuel with
  | zero => intro c; rfl
  | succ fuel ih =>
    intro c
    obtain ⟨e, he⟩ := hall c
    simp only [OpenBSD.openLoop, he]
    exact ih _

/-! ## C14: device enumeration stops at the first usable or missing device -/

/-- C14: let `i` be the first index whose open does not fail with an error
other than "does not exist" (every index below `i` fails with such an error).
Then `requestInterface`, given more than `i` loop iterations, tries exactly
the indices 0, 1, ..., `i` in this order and no other.  If the open at `i`
succeeds, it goes on with `/dev/tap<i>`: the interface is looked up under the
name "tap<i>", and when no later call fails the returned name buffer holds
"tap<i>" and the returned file is `/dev/tap<i>`.  If the open at `i` fails
with "does not exist", it returns `ErrNoUsableDevs`.  An open that fails with
another error makes the loop continue with the next index.  For `i` below
10^13 the name buffer decodes to "tap<i>". -/
theorem requestInterface_stops_at_first (d : OpenBSD.Devices) (i : Nat) (hi : i < 2 ^ 63)
    (hbefore : ∀ j : Nat, j < i → ∃ e, d.openTap (j : Int) = OpenBSD.OpenResult.failed e) :
    (d.openTap (i : Int) = OpenBSD.OpenResult.ok → ∀ fuel, i < fuel →
        OpenBSD.requestInterface d fuel =
          some (OpenBSD.afterOpen d (i : Int) ((List.range (i + 1)).map Int.ofNat))) ∧
      (d.openTap (i : Int) = OpenBSD.OpenResult.notExist → ∀ fuel, i < fuel →
        OpenBSD.requestInterface d fuel =
          some { name := zeroed IFNAMSIZ, fd := none, ps := none,
                 err := some ReqError.ErrNoUsableDevs,
                 tried := (List.range (i + 1)).map Int.ofNat }) ∧
      (∀ e, d.openTap (i : Int) = OpenBSD.OpenResult.failed e → ∀ fuel,
        OpenBSD.openLoop d (i + (fuel + 1)) 0 =
          ((OpenBSD.openLoop d fuel (wrapInt ((i : Int) + 1))).1,
           (List.range (i + 1)).map Int.ofNat
             ++ (OpenBSD.openLoop d fuel (wrapInt ((i : Int) + 1))).2)) ∧
      (∀ tried, (OpenBSD.afterOpen d (i : Int) tried).tried = tried ∧
        ((OpenBSD.afterOpen d (i : Int) tried).err = none →
          (OpenBSD.afterOpen d (i : Int) tried).name = encodeName (OpenBSD.tapName (i : Int)) ∧
            (OpenBSD.afterOpen d (i : Int) tried).fd = some (i : Int))) ∧
      (i < 10 ^ 13 →
        ByteSliceToString (encodeName (OpenBSD.tapName (i : Int))) = OpenBSD.tapName (i : Int)) := by
  refine ⟨?_, ?_, ?_, fun tried => afterOpen_name d i tried, tapName_decodes i⟩
  · intro hok fuel hfuel
    obtain ⟨r, rfl⟩ : ∃ r, fuel = i + (r + 1) := ⟨fuel - i - 1, by omega⟩
    have h := openLoop_reaches d (r + 1) i hi hbefore
    rw [openLoop_ok d r i hok] at h
    simp only [OpenBSD.requestInterface, h, map_range_succ]
  · intro hno fuel hfuel
    obtain ⟨r, rfl⟩ : ∃ r, fuel = i + (r + 1) := ⟨fuel - i - 1, by omega⟩
    have h := openLoop_reaches d (r + 1) i hi hbefore
    rw [openLoop_notExist d r i hno] at h
    simp only [OpenBSD.requestInterface, h, map_range_succ]
  · intro e he fuel
    have h := openLoop_reaches d (fuel + 1) i hi hbefore
    rw [openLoop_failed d fuel i e he] at h
    rw [h, map_range_succ, List.append_assoc]
    rfl

/-- C14 witness: with `/dev/tap0` and `/dev/tap1` busy and `/dev/tap2`
opening, `requestInterface` tries the indices 0, 1, 2 and returns the name
buffer of "tap2" with `/dev/tap2` open. -/
theorem requestInterface_stops_at_first_witness :
    OpenBSD.requestInterface OpenBSD.busyBusyOk 3 =
        some (OpenBSD.afterOpen OpenBSD.busyBusyOk 2 [0, 1, 2]) ∧
      OpenBSD.afterOpen OpenBSD.busyBusyOk 2 [0, 1, 2] =
        { name := encodeName [116, 97, 112, 50], fd := some 2,
          ps := some { netif := { Index := 7 } }, err := none, tried := [0, 1, 2] } ∧
      ByteSliceToString (encodeName [116, 97, 112, 50]) = [116, 97, 112, 50] :=
  ⟨(requestInterface_stops_at_first OpenBSD.busyBusyOk 2 (by decide)
      (fun j hj => by
        have h01 : j = 0 ∨ j = 1 := by omega
        rcases h01 with h | h <;> subst h <;> exact ⟨16, rfl⟩)).1 rfl 3 (by decide),
   rfl, by decide⟩

theorem openLoop_tried_length (d : OpenBSD.Devices)
    (hall : ∀ c : Int, ∃ e, d.openTap c = OpenBSD.OpenResult.failed e) (fuel : Nat) :
    ∀ c : Int, (OpenBSD.openLoop d fuel c).2.length = fuel := by
  induction fuel with
  | zero => intro c; rfl
  | succ fuel ih =>
    intro c
    obtain ⟨e, he⟩ := hall c
    rw [openLoop_failed d fuel c e he]
    simp [ih]

/-! ## C17: the device loop has no bound -/

/-- C17: if every candidate open fails with an error other than "does not
exist", then `requestInterface` does not return after any number of loop
iterations: the loop is still running after `fuel` iterations, for every
`fuel`, having made exactly `fuel` attempts; and for every index `n` that a Go
`int` can hold, the loop goes on to attempt index `n`: its first `n + 1`
attempts are the indices 0, 1, ..., `n`. -/
theorem requestInterface_never_returns (d : OpenBSD.Devices)
    (hall : ∀ c : Int, ∃ e, d.openTap c = OpenBSD.OpenResult.failed e) :
    (∀ fuel, OpenBSD.requestInterface d fuel = none) ∧
      (∀ fuel, (OpenBSD.openLoop d fuel 0).1 = OpenBSD.LoopEnd.running ∧
        (OpenBSD.openLoop d fuel 0).2.length = fuel) ∧
      (∀ n : Nat, n < 2 ^ 63 → ∀ fuel, n < fuel →
        (OpenBSD.openLoop d fuel 0).2.take (n + 1) = (List.range (n + 1)).map Int.ofNat) := by
  refine ⟨?_, fun fuel => ⟨openLoop_running d hall fuel 0, openLoop_tried_length d hall fuel 0⟩, ?_⟩
  · intro fuel
    have h := openLoop_running d hall fuel 0
    unfold OpenBSD.requestInterface
    rcases hr : OpenBSD.openLoop d fuel 0 with ⟨l, t⟩
    rw [hr] at h
    simp only at h
    subst h
    rfl
  · intro n hn fuel hfuel
    obtain ⟨r, rfl⟩ : ∃ r, fuel = n + (r + 1) := ⟨fuel - n - 1, by omega⟩
    obtain ⟨e, he⟩ := hall (n : Int)
    have h := openLoop_reaches d (r + 1) n hn (fun j _ => hall (j : Int))
    rw [openLoop_failed d r n e he] at h
    have hlen : ((List.range n).map Int.ofNat ++ [(n : Int)]).length = n + 1 := by simp
    have hsplit : (List.range n).map Int.ofNat
          ++ (n : Int) :: (OpenBSD.openLoop d r (wrapInt ((n : Int) + 1))).2 =
        ((List.range n).map Int.ofNat ++ [(n : Int)])
          ++ (OpenBSD.openLoop d r (wrapInt ((n : Int) + 1))).2 := by simp
    rw [h]
    simp only []
    rw [hsplit, List.take_left' hlen, map_range_succ]

/-- C17 witness: with every open failing with EACCES the loop is still
running after 1000 iterations. -/
theorem requestInterface_never_returns_witness :
    OpenBSD.requestInterface OpenBSD.allDenied 1000 = none :=
  (requestInterface_never_returns OpenBSD.allDenied (fun _ => ⟨13, rfl⟩)).1 1000

/-! ## C15: the name length check of the management-socket backend -/

/-- C15 fails on the code: the length test reads the 16-byte local array, not
the requested name, so it never fires.  For the 17-byte name
"abcdefghijklmnopq" `requestInterface` opens `/dev/net/tun`, sends TUNSETIFF
with the name cut to its first 16 bytes and returns no error; and for no
system and no options does it return the "name is too long" error. -/
theorem linux_long_name_not_rejected :
    Linux.longName.length = 17 ∧
      Linux.requestInterface Linux.tunOk { PlatformOptions := { Name := Linux.longName } } =
        { name := Linux.longName.take 16, fd := true, ps := some { netif := { Index := 5 } },
          err := none,
          trace := [Linux.TunReq.openTun,
                    Linux.TunReq.tunsetiff { Name := Linux.longName.take 16, Flags := 0x1002 },
                    Linux.TunReq.linkByName (Linux.longName.take 16)] } ∧
      (∀ t opts, (Linux.requestInterface t opts).err ≠ some ReqError.nameTooLong) := by
  refine ⟨rfl, rfl, ?_⟩
  intro t opts
  have hlen : ¬ (zeroed IFNAMSIZ).length > IFNAMSIZ := by
    rw [length_zeroed]; exact Nat.lt_irrefl _
  unfold Linux.requestInterface
  simp only [hlen, if_false]
  split
  · simp
  · split
    · simp
    · split <;> simp

end Tap
